import Mathlib

/-!
Shallow embedding of the simulation core of `src/backup.ts` (an arcade
lane-driving game).  JavaScript numbers are modelled as rationals (ℚ);
`Math.random()` draws, keyboard state and the wall clock (`Date.now()`)
are supplied as explicit inputs; `Math.sin`/`Math.cos`/`Math.PI` are
passed as parameters (`sinq`, `cosq`, `piq`), since the claims under
study never depend on their values.  Every definition follows the
corresponding source function line by line.
-/

/-! ### GAME_CONFIG constants (src/backup.ts lines 6-62) -/

def CANVAS_WIDTH : ℚ := 400
/-- `window.innerHeight || 600`: modelled with the 600 default. -/
def CANVAS_HEIGHT : ℚ := 600
def GAME_DURATION : ℚ := 60000
def SPEED_INCREASE_20S : ℚ := 1.1
def SPEED_INCREASE_40S : ℚ := 1.2
def PLAYER_WIDTH : ℚ := 80
def PLAYER_HEIGHT : ℚ := 120
def LANE_CHANGE_DURATION : ℚ := 150
def NPC_SPEED : ℚ := 200
def NPC_SPAWN_INTERVAL : ℚ := 2000
def MAX_NPCS : ℕ := 8
def COIN_SIZE : ℚ := 25
def COIN_SPAWN_CHANCE : ℚ := 0.35
def COIN_SPAWN_INTERVAL : ℚ := 600
def MAX_COINS : ℕ := 20
def COIN_BURST_PARTICLES : ℕ := 20
def MAX_POWER : ℚ := 120
def POWER_DECAY_RATE : ℚ := 1
def POWERUP_SPAWN_CHANCE : ℚ := 0.08
def MAX_POWERUPS : ℕ := 6
def SHIELD_DURATION : ℚ := 8000
def HAZARD_SPAWN_CHANCE : ℚ := 0.08
def MAX_HAZARDS : ℕ := 8
def GRAVITY : ℚ := 0.3

/-- `GAME_CONFIG.LANES = [100, 200, 300]`, indexed by lane number. -/
def laneX (i : ℤ) : ℚ :=
  if i = 0 then 100 else if i = 1 then 200 else if i = 2 then 300 else 0

/-- Game states (`GAME_STATE`, lines 65-72). -/
inductive GState where
  | splash
  | loading
  | playing
  | paused
  | game_over
  | lead_form
deriving DecidableEq

/-! ### Axis-aligned bounds test (`GameObject.getBounds` / `collidesWith`) -/

structure Bounds where
  left : ℚ
  right : ℚ
  top : ℚ
  bottom : ℚ
deriving DecidableEq

def boundsOf (x y w h : ℚ) : Bounds :=
  ⟨x - w / 2, x + w / 2, y - h / 2, y + h / 2⟩

/-- `collidesWith` (lines 103-111): strict overlap on both axes. -/
def boundsIntersect (b1 b2 : Bounds) : Bool :=
  decide (b1.left < b2.right) && decide (b1.right > b2.left) &&
  decide (b1.top < b2.bottom) && decide (b1.bottom > b2.top)

def hits (x1 y1 w1 h1 x2 y2 w2 h2 : ℚ) : Bool :=
  boundsIntersect (boundsOf x1 y1 w1 h1) (boundsOf x2 y2 w2 h2)

/-! ### Player (lines 114-179) -/

structure Player where
  x : ℚ
  y : ℚ
  width : ℚ
  height : ℚ
  velocityX : ℚ
  velocityY : ℚ
  active : Bool
  targetLane : ℤ
  currentLane : ℤ
  laneChangeProgress : ℚ
  power : ℚ
  maxPower : ℚ
  shieldActive : Bool
  shieldEndTime : ℚ
  score : ℤ
deriving DecidableEq

/-- `new Player()` (lines 115-128). -/
def Player.init : Player where
  x := CANVAS_WIDTH / 2
  y := CANVAS_HEIGHT - 100
  width := PLAYER_WIDTH
  height := PLAYER_HEIGHT
  velocityX := 0
  velocityY := 0
  active := true
  targetLane := 1
  currentLane := 1
  laneChangeProgress := 0
  power := 100
  maxPower := MAX_POWER
  shieldActive := false
  shieldEndTime := 0
  score := 0

/-- `Player.update(dt)` (lines 130-157).  The `super.update` integration of
`x`/`y` is unconditionally overwritten by the lane interpolation and the
fixed-Y assignment, so only the net effect appears.  `now` stands for the
`Date.now()` read in the shield timeout. -/
def Player.update (p : Player) (dt now : ℚ) : Player :=
  let lc : ℚ × ℤ :=
    if p.laneChangeProgress < 1 then
      let pr := p.laneChangeProgress + dt / LANE_CHANGE_DURATION
      if 1 ≤ pr then ((1 : ℚ), p.targetLane) else (pr, p.currentLane)
    else (p.laneChangeProgress, p.currentLane)
  let startX := laneX lc.2
  let endX := laneX p.targetLane
  { p with
    x := startX + (endX - startX) * lc.1
    y := CANVAS_HEIGHT - 100
    laneChangeProgress := lc.1
    currentLane := lc.2
    power := max 0 (p.power - POWER_DECAY_RATE * dt / 1000)
    shieldActive := if p.shieldActive ∧ p.shieldEndTime < now then false else p.shieldActive }

/-- `Player.changeLane(direction)` (lines 159-167). -/
def Player.changeLane (p : Player) (direction : ℤ) : Player :=
  if p.laneChangeProgress < 1 then p
  else
    let newLane := max 0 (min 2 (p.targetLane + direction))
    if newLane ≠ p.targetLane then
      { p with targetLane := newLane, laneChangeProgress := 0 }
    else p

/-- `Player.activateShield()` (lines 169-172). -/
def Player.activateShield (p : Player) (now : ℚ) : Player :=
  { p with shieldActive := true, shieldEndTime := now + SHIELD_DURATION }

/-- `Player.takeDamage(amount)` (lines 174-178). -/
def Player.takeDamage (p : Player) (amount : ℚ) : Player :=
  if p.shieldActive then p else { p with power := max 0 (p.power - amount) }

/-! ### NPC traffic (lines 181-332) -/

/-- The six `carTypes` variants (lines 184-191). -/
inductive CarKind where
  | saloon
  | suv
  | hatchback
  | sports
  | truck
  | compact
deriving DecidableEq

/-- `carTypes[i]` as (kind, width, height, color); out-of-range indices
(impossible for draws in [0,1)) fall back to the first entry. -/
def carTypeAt (i : ℤ) : CarKind × ℚ × ℚ × String :=
  if i = 0 then (.saloon, 85, 125, "#3498db")
  else if i = 1 then (.suv, 95, 140, "#e74c3c")
  else if i = 2 then (.hatchback, 75, 110, "#2ecc71")
  else if i = 3 then (.sports, 80, 120, "#f39c12")
  else if i = 4 then (.truck, 100, 150, "#9b59b6")
  else if i = 5 then (.compact, 70, 100, "#1abc9c")
  else (.saloon, 85, 125, "#3498db")

structure NPC where
  x : ℚ
  y : ℚ
  width : ℚ
  height : ℚ
  velocityX : ℚ
  velocityY : ℚ
  active : Bool
  lane : ℤ
  wobbleOffset : ℚ
  wobbleSpeed : ℚ
  originalX : ℚ
  carType : CarKind
  carColor : String
  carWidth : ℚ
  carHeight : ℚ
  forwardMovement : Bool
  forwardSpeed : ℚ
  forwardDirection : ℚ
  forwardTimer : ℚ
  forwardDuration : ℚ
  laneChangeTimer : ℚ
  laneChangeInterval : ℚ
  targetLane : ℤ
  laneChangeProgress : ℚ
  laneChangeSpeed : ℚ
  avoidanceDirection : ℚ
  avoidanceSpeed : ℚ
  maxAvoidanceSpeed : ℚ
  avoidanceDistance : ℚ
  isAvoiding : Bool
  avoidanceOffset : ℚ
deriving DecidableEq

/-- The `Math.random()` draws consumed by `new NPC(lane)`, in source order. -/
structure NpcInitR where
  carDraw : ℚ
  velDraw : ℚ
  wobblePhase : ℚ
  wobbleSpd : ℚ
  fwdMove : ℚ
  fwdSpd : ℚ
  fwdDir : ℚ
  fwdDur : ℚ
  lcInterval : ℚ
  lcSpeed : ℚ
  avoidDir : ℚ
deriving DecidableEq

/-- `new NPC(lane)` (lines 182-229). -/
def NPC.create (lane : ℤ) (piq : ℚ) (r : NpcInitR) : NPC :=
  let car := carTypeAt ⌊r.carDraw * 6⌋
  { x := laneX lane
    y := -100
    width := car.2.1
    height := car.2.2.1
    velocityX := 0
    velocityY := NPC_SPEED + (r.velDraw - 0.5) * 50
    active := true
    lane := lane
    wobbleOffset := r.wobblePhase * piq * 2
    wobbleSpeed := 0.02 + r.wobbleSpd * 0.03
    originalX := laneX lane
    carType := car.1
    carColor := car.2.2.2
    carWidth := car.2.1
    carHeight := car.2.2.1
    forwardMovement := 0.9 < r.fwdMove
    forwardSpeed := 15 + r.fwdSpd * 25
    forwardDirection := if 0.5 < r.fwdDir then 1 else -1
    forwardTimer := 0
    forwardDuration := 1500 + r.fwdDur * 2000
    laneChangeTimer := 0
    laneChangeInterval := 8000 + r.lcInterval * 12000
    targetLane := lane
    laneChangeProgress := 0
    laneChangeSpeed := 0.002 + r.lcSpeed * 0.003
    avoidanceDirection := if 0.5 < r.avoidDir then 1 else -1
    avoidanceSpeed := 0
    maxAvoidanceSpeed := 100
    avoidanceDistance := 150
    isAvoiding := false
    avoidanceOffset := 0 }

/-- The draws consumed by `NPC.update` (forward-movement reset and
lane-change retarget), used only when the respective branch fires. -/
structure NpcUpdR where
  fwdMove : ℚ
  fwdDir : ℚ
  fwdDur : ℚ
  laneDraw : ℚ
  lcInterval : ℚ
deriving DecidableEq

/-- `NPC.updateForwardMovement(dt)` (lines 285-297). -/
def NPC.updateForwardMovement (n : NPC) (dt : ℚ) (u : NpcUpdR) : NPC :=
  if n.forwardMovement then
    let t := n.forwardTimer + dt
    if n.forwardDuration < t then
      { n with
        forwardMovement := 0.9 < u.fwdMove
        forwardTimer := 0
        forwardDuration := 1500 + u.fwdDur * 2000
        forwardDirection := if 0.5 < u.fwdDir then 1 else -1 }
    else { n with forwardTimer := t }
  else n

/-- `NPC.updateLaneChanging(dt)` (lines 299-322). -/
def NPC.updateLaneChanging (n0 : NPC) (dt : ℚ) (u : NpcUpdR) : NPC :=
  let t := n0.laneChangeTimer + dt
  let n : NPC :=
    if n0.laneChangeInterval < t then
      let avail := ([0, 1, 2] : List ℤ).filter (fun l => l ≠ n0.lane)
      if avail.length ≠ 0 then
        { n0 with
          targetLane := avail.getD (⌊u.laneDraw * (avail.length : ℚ)⌋).toNat 0
          laneChangeProgress := 0
          laneChangeTimer := 0
          laneChangeInterval := 8000 + u.lcInterval * 12000 }
      else { n0 with laneChangeTimer := t }
    else { n0 with laneChangeTimer := t }
  if n.laneChangeProgress < 1 then
    let pr := n.laneChangeProgress + n.laneChangeSpeed * (dt / 16.67)
    if 1 ≤ pr then
      { n with laneChangeProgress := 1, lane := n.targetLane,
               originalX := laneX n.targetLane }
    else { n with laneChangeProgress := pr }
  else n

/-- `NPC.getLaneChangeOffset()` (lines 324-331). -/
def NPC.getLaneChangeOffset (n : NPC) : ℚ :=
  if n.laneChangeProgress < 1 then
    (laneX n.targetLane - laneX n.lane) * n.laneChangeProgress
  else 0

/-- `NPC.update(dt, player)` (lines 231-283). -/
def NPC.update (sinq : ℚ → ℚ) (n0 : NPC) (dt : ℚ) (player : Option Player)
    (u : NpcUpdR) : NPC :=
  let n1 := { n0 with
    x := n0.x + n0.velocityX * (dt / 1000)
    y := n0.y + n0.velocityY * (dt / 1000) }
  let n2 := (n1.updateForwardMovement dt u).updateLaneChanging dt u
  let n3 :=
    match player with
    | none => n2
    | some p =>
      let distanceToPlayer := |n2.y - p.y|
      let horizontalDistance := |n2.x - p.x|
      if distanceToPlayer < n2.avoidanceDistance ∧ horizontalDistance < 80 then
        let avoidanceForce :=
          max 0 ((n2.avoidanceDistance - distanceToPlayer) / n2.avoidanceDistance)
        let spd := n2.maxAvoidanceSpeed * avoidanceForce
        let dir : ℚ := if p.x < n2.x then 1 else -1
        let off := n2.avoidanceOffset + dir * spd * (dt / 1000)
        { n2 with
          isAvoiding := true
          avoidanceSpeed := spd
          avoidanceDirection := dir
          avoidanceOffset := max (-60) (min 60 off) }
      else
        { n2 with isAvoiding := false, avoidanceOffset := n2.avoidanceOffset * 0.9 }
  let wobble := sinq n3.wobbleOffset * 3
  let n4 := { n3 with
    x := n3.originalX + wobble + n3.avoidanceOffset + n3.getLaneChangeOffset
    wobbleOffset := n3.wobbleOffset + n3.wobbleSpeed * (dt / 16.67) }
  if CANVAS_HEIGHT + 100 < n4.y then { n4 with active := false } else n4

/-! ### Coin (lines 334-373) -/

structure Coin where
  x : ℚ
  y : ℚ
  width : ℚ
  height : ℚ
  velocityX : ℚ
  velocityY : ℚ
  active : Bool
  lane : ℤ
  collected : Bool
  collectTime : ℚ
  bobOffset : ℚ
  bobSpeed : ℚ
  originalX : ℚ
deriving DecidableEq

structure CoinInitR where
  velDraw : ℚ
  bobPhase : ℚ
  bobSpd : ℚ
deriving DecidableEq

/-- `new Coin(lane)` (lines 335-344). -/
def Coin.create (lane : ℤ) (piq : ℚ) (r : CoinInitR) : Coin where
  x := laneX lane
  y := -50
  width := COIN_SIZE
  height := COIN_SIZE
  velocityX := 0
  velocityY := NPC_SPEED + (r.velDraw - 0.5) * 30
  active := true
  lane := lane
  collected := false
  collectTime := 0
  bobOffset := r.bobPhase * piq * 2
  bobSpeed := 0.03 + r.bobSpd * 0.02
  originalX := laneX lane

/-- `Coin.update(dt)` (lines 346-363); `now` is the `Date.now()` read in
the re-arm check. -/
def Coin.update (sinq : ℚ → ℚ) (c : Coin) (dt now : ℚ) : Coin :=
  let y1 := c.y + c.velocityY * (dt / 1000)
  { c with
    x := c.originalX + sinq c.bobOffset * 2
    y := y1
    bobOffset := c.bobOffset + c.bobSpeed * (dt / 16.67)
    active := if CANVAS_HEIGHT + 100 < y1 then false else c.active
    collected := if c.collected ∧ c.collectTime < now then false else c.collected }

/-- `Coin.collect()` (lines 365-372): returns success plus the new coin. -/
def Coin.collectOp (c : Coin) : Bool × Coin :=
  if c.collected then (false, c)
  else (true, { c with collected := true, active := false })

/-! ### Powerup (lines 375-392) -/

inductive PowerupType where
  | shield
deriving DecidableEq

structure Powerup where
  x : ℚ
  y : ℚ
  width : ℚ
  height : ℚ
  velocityX : ℚ
  velocityY : ℚ
  active : Bool
  lane : ℤ
  type : PowerupType
  collected : Bool
deriving DecidableEq

/-- `new Powerup(lane)` (lines 376-382). -/
def Powerup.create (lane : ℤ) : Powerup where
  x := laneX lane
  y := -50
  width := 30
  height := 30
  velocityX := 0
  velocityY := NPC_SPEED
  active := true
  lane := lane
  type := .shield
  collected := false

/-- `Powerup.update(dt)` (lines 384-391). -/
def Powerup.update (pu : Powerup) (dt : ℚ) : Powerup :=
  let y1 := pu.y + pu.velocityY * (dt / 1000)
  { pu with
    x := pu.x + pu.velocityX * (dt / 1000)
    y := y1
    active := if CANVAS_HEIGHT + 100 < y1 then false else pu.active }

/-! ### Hazard (lines 394-416) -/

inductive HazardType where
  | hazard_light
  | road_work
  | camel_crossing
deriving DecidableEq

/-- `types[i]` for the hazard-type draw (line 999). -/
def hazardTypeAt (i : ℤ) : HazardType :=
  if i = 0 then .hazard_light else if i = 1 then .road_work
  else if i = 2 then .camel_crossing else .hazard_light

structure Hazard where
  x : ℚ
  y : ℚ
  width : ℚ
  height : ℚ
  velocityX : ℚ
  velocityY : ℚ
  active : Bool
  lane : ℤ
  type : HazardType
  blinkState : ℕ
deriving DecidableEq

/-- `new Hazard(lane, type)` (lines 395-401). -/
def Hazard.create (lane : ℤ) (t : HazardType) : Hazard where
  x := laneX lane
  y := -50
  width := 30
  height := 24
  velocityX := 0
  velocityY := NPC_SPEED
  active := true
  lane := lane
  type := t
  blinkState := 0

/-- `Hazard.update(dt)` (lines 403-415). -/
def Hazard.update (h : Hazard) (dt : ℚ) : Hazard :=
  let y1 := h.y + h.velocityY * (dt / 1000)
  { h with
    x := h.x + h.velocityX * (dt / 1000)
    y := y1
    active := if CANVAS_HEIGHT + 100 < y1 then false else h.active
    blinkState := if h.type = .hazard_light then (h.blinkState + 1) % 60 else h.blinkState }

/-! ### Particle (lines 418-445) -/

structure Particle where
  x : ℚ
  y : ℚ
  velocityX : ℚ
  velocityY : ℚ
  life : ℚ
  maxLife : ℚ
  color : String
  size : ℚ
  active : Bool
deriving DecidableEq

/-- `Particle.update(dt)` (lines 431-440). -/
def Particle.update (pa : Particle) (dt : ℚ) : Particle :=
  let life1 := pa.life - dt
  { pa with
    x := pa.x + pa.velocityX * (dt / 1000)
    y := pa.y + pa.velocityY * (dt / 1000)
    velocityY := pa.velocityY + GRAVITY * (dt / 1000)
    life := life1
    active := if life1 ≤ 0 then false else pa.active }

/-! ### GameManager state (lines 451-510 / `resetGame` lines 819-839) -/

structure GameState where
  gameState : GState
  isGameLoopRunning : Bool
  player : Player
  npcs : List NPC
  coins : List Coin
  powerups : List Powerup
  hazards : List Hazard
  particles : List Particle
  gameTime : ℚ
  lastSpawnTime : ℚ
  lastCoinSpawnTime : ℚ
  lastPowerupSpawnTime : ℚ
  lastHazardSpawnTime : ℚ
  burstStreak : ℤ
  lastBurstTime : ℚ
  roadOffset : ℚ
  roadSpeed : ℚ
  currentSpeedMultiplier : ℚ
  speedIncreaseApplied20s : Bool
  speedIncreaseApplied40s : Bool
deriving DecidableEq

/-- `resetGame()` followed by the `gameState = PLAYING` /
`startGameLoop()` steps of `startGame()` (lines 804-839): the state in
which a fresh playing session begins. -/
def initialPlaying : GameState where
  gameState := .playing
  isGameLoopRunning := true
  player := Player.init
  npcs := []
  coins := []
  powerups := []
  hazards := []
  particles := []
  gameTime := GAME_DURATION
  lastSpawnTime := 0
  lastCoinSpawnTime := 0
  lastPowerupSpawnTime := 0
  lastHazardSpawnTime := 0
  burstStreak := 0
  lastBurstTime := 0
  roadOffset := 0
  roadSpeed := 8
  currentSpeedMultiplier := 1
  speedIncreaseApplied20s := false
  speedIncreaseApplied40s := false

/-- `endGame()` (lines 1137-1142): terminal transition plus
`stopGameLoop()`; the DOM screen calls have no simulation effect. -/
def endGame (s : GameState) : GameState :=
  { s with gameState := .game_over, isGameLoopRunning := false }

/-- `updateSpeedProgression()` (lines 904-920). -/
def updateSpeedProgression (s : GameState) : GameState :=
  let timeElapsed := (GAME_DURATION - s.gameTime) / 1000
  let s :=
    if 20 ≤ timeElapsed ∧ s.speedIncreaseApplied20s = false then
      { s with currentSpeedMultiplier := SPEED_INCREASE_20S, speedIncreaseApplied20s := true }
    else s
  if 40 ≤ timeElapsed ∧ s.speedIncreaseApplied40s = false then
    { s with currentSpeedMultiplier := SPEED_INCREASE_40S, speedIncreaseApplied40s := true }
  else s

/-- `handleInput()` (lines 922-929); `left`/`right` are the observed
keyboard flags for ArrowLeft/KeyA and ArrowRight/KeyD. -/
def handleInput (s : GameState) (left right : Bool) : GameState :=
  let s := if left then { s with player := s.player.changeLane (-1) } else s
  if right then { s with player := s.player.changeLane 1 } else s

/-- `Math.random()` draws consumed by one `spawnObjects` pass, per branch;
each is used only when its branch is reached. -/
structure SpawnR where
  npcLane : ℚ
  npcInit : NpcInitR
  coinChance : ℚ
  coinLane : ℚ
  coinInit : CoinInitR
  puChance : ℚ
  puLane : ℚ
  hzChance : ℚ
  hzLane : ℚ
  hzType : ℚ
deriving DecidableEq

/-- The guard of the NPC branch of `spawnObjects` (lines 935-961):
cooldown, cap, spacing and per-lane density. -/
def npcSpawnCond (s : GameState) (now : ℚ) (r : SpawnR) : Bool :=
  let proposedLane : ℤ := ⌊r.npcLane * 3⌋
  let hasSpace := s.npcs.all (fun n => !decide (|n.y - (-100)| < 200))
  let npcsInLane := (s.npcs.filter (fun n => |n.x - laneX proposedLane| < 50)).length
  decide (NPC_SPAWN_INTERVAL < now - s.lastSpawnTime) &&
  decide (s.npcs.length < MAX_NPCS) && hasSpace && decide (npcsInLane < 2)

/-- The guard of the coin branch (lines 971-973). -/
def coinSpawnCond (s : GameState) (now : ℚ) (r : SpawnR) : Bool :=
  decide (COIN_SPAWN_INTERVAL < now - s.lastCoinSpawnTime) &&
  decide (s.coins.length < MAX_COINS) && decide (r.coinChance < COIN_SPAWN_CHANCE)

/-- The guard of the powerup branch (lines 983-985); the 1000ms interval
is a literal in the source. -/
def powerupSpawnCond (s : GameState) (now : ℚ) (r : SpawnR) : Bool :=
  decide ((1000 : ℚ) < now - s.lastPowerupSpawnTime) &&
  decide (s.powerups.length < MAX_POWERUPS) && decide (r.puChance < POWERUP_SPAWN_CHANCE)

/-- The guard of the hazard branch (lines 995-997); the 1500ms interval
is a literal in the source. -/
def hazardSpawnCond (s : GameState) (now : ℚ) (r : SpawnR) : Bool :=
  decide ((1500 : ℚ) < now - s.lastHazardSpawnTime) &&
  decide (s.hazards.length < MAX_HAZARDS) && decide (r.hzChance < HAZARD_SPAWN_CHANCE)

/-- The NPC spawn block (lines 934-968); `now` is `Date.now()`.  Note that
in the source `hasSpace` is computed with an early `break`, but when it is
`false` the spawn guard fails regardless of `npcsInLane`, so the all/filter
formulation in `npcSpawnCond` is equivalent. -/
def spawnNpcs (piq : ℚ) (s : GameState) (now : ℚ) (r : SpawnR) : GameState :=
  if npcSpawnCond s now r then
    let npc := NPC.create ⌊r.npcLane * 3⌋ piq r.npcInit
    let npc := { npc with velocityY := npc.velocityY * s.currentSpeedMultiplier }
    { s with npcs := s.npcs ++ [npc], lastSpawnTime := now }
  else s

/-- The coin spawn block (lines 970-980). -/
def spawnCoins (piq : ℚ) (s : GameState) (now : ℚ) (r : SpawnR) : GameState :=
  if coinSpawnCond s now r then
    let coin := Coin.create ⌊r.coinLane * 3⌋ piq r.coinInit
    let coin := { coin with velocityY := coin.velocityY * s.currentSpeedMultiplier }
    { s with coins := s.coins ++ [coin], lastCoinSpawnTime := now }
  else s

/-- The powerup spawn block (lines 982-992). -/
def spawnPowerups (s : GameState) (now : ℚ) (r : SpawnR) : GameState :=
  if powerupSpawnCond s now r then
    let pu := Powerup.create ⌊r.puLane * 3⌋
    let pu := { pu with velocityY := pu.velocityY * s.currentSpeedMultiplier }
    { s with powerups := s.powerups ++ [pu], lastPowerupSpawnTime := now }
  else s

/-- The hazard spawn block (lines 994-1006). -/
def spawnHazards (s : GameState) (now : ℚ) (r : SpawnR) : GameState :=
  if hazardSpawnCond s now r then
    let hz := Hazard.create ⌊r.hzLane * 3⌋ (hazardTypeAt ⌊r.hzType * 3⌋)
    let hz := { hz with velocityY := hz.velocityY * s.currentSpeedMultiplier }
    { s with hazards := s.hazards ++ [hz], lastHazardSpawnTime := now }
  else s

/-- `spawnObjects(dt)` (lines 931-1007), as the composition of its four
branch blocks, in source order; `now` is the `Date.now()` read at the top. -/
def spawnObjects (piq : ℚ) (s : GameState) (now : ℚ) (r : SpawnR) : GameState :=
  spawnHazards (spawnPowerups (spawnCoins piq (spawnNpcs piq s now r) now r) now r) now r

/-- `updateObjects(dt)` (lines 1009-1025): map each entity through its
update (NPCs receive the player reference), then filter on `active`.
`us` supplies the per-NPC update draws by list position. -/
def updateObjects (sinq : ℚ → ℚ) (s : GameState) (dt now : ℚ) (us : ℕ → NpcUpdR) :
    GameState :=
  { s with
    npcs := ((s.npcs.enum.map fun ni =>
      NPC.update sinq ni.2 dt (some s.player) (us ni.1)).filter fun n => n.active)
    coins := ((s.coins.map fun c => c.update sinq dt now).filter fun c => c.active)
    powerups := ((s.powerups.map fun pu => pu.update dt).filter fun pu => pu.active)
    hazards := ((s.hazards.map fun h => h.update dt).filter fun h => h.active) }

/-! ### Particle bursts (lines 1107-1135) -/

/-- The three draws of one `createCoinBurst` particle (speed, color, size). -/
structure BurstR where
  speed : ℚ
  colorIdx : ℚ
  size : ℚ
deriving DecidableEq

/-- The four draws of one `createExplosion` particle. -/
structure ExplR where
  angle : ℚ
  speed : ℚ
  colorIdx : ℚ
  size : ℚ
deriving DecidableEq

def coinBurstColors : List String :=
  ["#0066cc", "#4ecdc4", "#ffffff", "#ffd700", "#ff6b35"]

def explosionColors : List String :=
  ["#ff6b35", "#ffd700", "#ffffff", "#ff4757"]

/-- `createCoinBurst(x, y)` (lines 1107-1120): 20 radial particles. -/
def createCoinBurst (sinq cosq : ℚ → ℚ) (piq x y : ℚ) (f : ℕ → BurstR) :
    List Particle :=
  (List.range COIN_BURST_PARTICLES).map fun i =>
    let r := f i
    let angle := piq * 2 * (i : ℚ) / (COIN_BURST_PARTICLES : ℚ)
    let speed := 12 + r.speed * 8
    let color := coinBurstColors.getD (⌊r.colorIdx * (coinBurstColors.length : ℚ)⌋).toNat ""
    { x := x, y := y
      velocityX := cosq angle * speed
      velocityY := sinq angle * speed - 5
      life := 1200, maxLife := 1200
      color := color
      size := r.size * 4 + 2
      active := true }

/-- `createExplosion(x, y)` (lines 1122-1135): 15 random particles. -/
def createExplosion (sinq cosq : ℚ → ℚ) (piq x y : ℚ) (f : ℕ → ExplR) :
    List Particle :=
  (List.range 15).map fun i =>
    let r := f i
    let angle := r.angle * piq * 2
    let speed := 8 + r.speed * 12
    let color := explosionColors.getD (⌊r.colorIdx * (explosionColors.length : ℚ)⌋).toNat ""
    { x := x, y := y
      velocityX := cosq angle * speed
      velocityY := sinq angle * speed
      life := 800, maxLife := 800
      color := color
      size := r.size * 6 + 3
      active := true }

/-! ### Collision resolver (`checkCollisions`, lines 1027-1100) -/

def playerHitsCoin (p : Player) (c : Coin) : Bool :=
  hits p.x p.y p.width p.height c.x c.y c.width c.height

def playerHitsPowerup (p : Player) (pu : Powerup) : Bool :=
  hits p.x p.y p.width p.height pu.x pu.y pu.width pu.height

def playerHitsNpc (p : Player) (n : NPC) : Bool :=
  hits p.x p.y p.width p.height n.x n.y n.width n.height

def playerHitsHazard (p : Player) (h : Hazard) : Bool :=
  hits p.x p.y p.width p.height h.x h.y h.width h.height

/-- The coin `forEach` (lines 1029-1047): score, burst particles and the
combo streak; `f i` supplies the burst draws for the coin at position `i`. -/
def processCoins (sinq cosq : ℚ → ℚ) (piq now : ℚ) (f : ℕ → ℕ → BurstR) :
    GameState → ℕ → List Coin → GameState × List Coin
  | s, _, [] => (s, [])
  | s, i, c :: rest =>
    if playerHitsCoin s.player c ∧ (c.collectOp).1 then
      let c1 := (c.collectOp).2
      let parts := createCoinBurst sinq cosq piq c.x c.y (f i)
      let streak := if now - s.lastBurstTime < 500 then s.burstStreak + 1 else 1
      let s1 := { s with
        player := { s.player with score := s.player.score + 10 }
        particles := s.particles ++ parts
        burstStreak := streak
        lastBurstTime := now }
      let res := processCoins sinq cosq piq now f s1 (i + 1) rest
      (res.1, c1 :: res.2)
    else
      let res := processCoins sinq cosq piq now f s (i + 1) rest
      (res.1, c :: res.2)

def coinCollisions (sinq cosq : ℚ → ℚ) (piq now : ℚ) (f : ℕ → ℕ → BurstR)
    (s : GameState) : GameState :=
  let res := processCoins sinq cosq piq now f s 0 s.coins
  { res.1 with coins := res.2 }

/-- The powerup `forEach` (lines 1050-1060): shield activation, explosion
particles, deactivation. -/
def processPowerups (sinq cosq : ℚ → ℚ) (piq now : ℚ) (f : ℕ → ℕ → ExplR) :
    GameState → ℕ → List Powerup → GameState × List Powerup
  | s, _, [] => (s, [])
  | s, i, pu :: rest =>
    if playerHitsPowerup s.player pu then
      let p1 := if pu.type = .shield then s.player.activateShield now else s.player
      let parts := createExplosion sinq cosq piq pu.x pu.y (f i)
      let s1 := { s with player := p1, particles := s.particles ++ parts }
      let res := processPowerups sinq cosq piq now f s1 (i + 1) rest
      (res.1, { pu with active := false } :: res.2)
    else
      let res := processPowerups sinq cosq piq now f s (i + 1) rest
      (res.1, pu :: res.2)

def powerupCollisions (sinq cosq : ℚ → ℚ) (piq now : ℚ) (f : ℕ → ℕ → ExplR)
    (s : GameState) : GameState :=
  let res := processPowerups sinq cosq piq now f s 0 s.powerups
  { res.1 with powerups := res.2 }

/-- The per-NPC body of the NPC `forEach` (lines 1063-1081): the avoidance
nudge, clamped to ±80; the NPC is never deactivated. -/
def npcNudge (n : NPC) : NPC :=
  let off := n.avoidanceOffset + n.avoidanceDirection * 30
  { n with avoidanceOffset := max (-80) (min 80 off) }

/-- The NPC `forEach` (lines 1062-1081): damage 10 through `takeDamage`,
explosion particles, nudge, and the power-zero terminal check. -/
def processNpcs (sinq cosq : ℚ → ℚ) (piq : ℚ) (f : ℕ → ℕ → ExplR) :
    GameState → ℕ → List NPC → GameState × List NPC
  | s, _, [] => (s, [])
  | s, i, n :: rest =>
    if playerHitsNpc s.player n then
      let p1 := s.player.takeDamage 10
      let parts := createExplosion sinq cosq piq n.x n.y (f i)
      let s1 := { s with player := p1, particles := s.particles ++ parts }
      let s2 := if p1.power ≤ 0 then endGame s1 else s1
      let res := processNpcs sinq cosq piq f s2 (i + 1) rest
      (res.1, npcNudge n :: res.2)
    else
      let res := processNpcs sinq cosq piq f s (i + 1) rest
      (res.1, n :: res.2)

def npcCollisions (sinq cosq : ℚ → ℚ) (piq : ℚ) (f : ℕ → ℕ → ExplR)
    (s : GameState) : GameState :=
  let res := processNpcs sinq cosq piq f s 0 s.npcs
  { res.1 with npcs := res.2 }

/-- The hazard `forEach` (lines 1084-1099): damage 15 through `takeDamage`,
explosion particles, deactivation, and the power-zero terminal check. -/
def processHazards (sinq cosq : ℚ → ℚ) (piq : ℚ) (f : ℕ → ℕ → ExplR) :
    GameState → ℕ → List Hazard → GameState × List Hazard
  | s, _, [] => (s, [])
  | s, i, h :: rest =>
    if playerHitsHazard s.player h then
      let p1 := s.player.takeDamage 15
      let parts := createExplosion sinq cosq piq h.x h.y (f i)
      let s1 := { s with player := p1, particles := s.particles ++ parts }
      let s2 := if p1.power ≤ 0 then endGame s1 else s1
      let res := processHazards sinq cosq piq f s2 (i + 1) rest
      (res.1, { h with active := false } :: res.2)
    else
      let res := processHazards sinq cosq piq f s (i + 1) rest
      (res.1, h :: res.2)

def hazardCollisions (sinq cosq : ℚ → ℚ) (piq : ℚ) (f : ℕ → ℕ → ExplR)
    (s : GameState) : GameState :=
  let res := processHazards sinq cosq piq f s 0 s.hazards
  { res.1 with hazards := res.2 }

/-- Particle draws consumed by one `checkCollisions` pass. -/
structure CollR where
  coinBurst : ℕ → ℕ → BurstR
  puExpl : ℕ → ℕ → ExplR
  npcExpl : ℕ → ℕ → ExplR
  hzExpl : ℕ → ℕ → ExplR

/-- `checkCollisions()` (lines 1027-1100): coins, powerups, NPCs, hazards,
in source order. -/
def checkCollisions (sinq cosq : ℚ → ℚ) (piq now : ℚ) (cr : CollR)
    (s : GameState) : GameState :=
  hazardCollisions sinq cosq piq cr.hzExpl
    (npcCollisions sinq cosq piq cr.npcExpl
      (powerupCollisions sinq cosq piq now cr.puExpl
        (coinCollisions sinq cosq piq now cr.coinBurst s)))

/-- `updateParticles(dt)` (lines 1102-1105). -/
def updateParticles (s : GameState) (dt : ℚ) : GameState :=
  { s with particles := ((s.particles.map fun pa => pa.update dt).filter fun pa => pa.active) }

/-! ### The frame driver (`update(dt)`, lines 866-902) -/

/-- All external inputs of one frame: the elapsed delta, the `Date.now()`
wall clock, the keyboard flags and every random draw the frame may consume. -/
structure FrameIn where
  dt : ℚ
  now : ℚ
  left : Bool
  right : Bool
  spawn : SpawnR
  npcUpd : ℕ → NpcUpdR
  coll : CollR

/-- The road-animation block of `update` (lines 880-883). -/
def applyRoad (s : GameState) (dt : ℚ) : GameState :=
  let ro := s.roadOffset - s.roadSpeed * (dt / 16.67)
  { s with roadOffset := if ro < 0 then 40 else ro }

/-- The `this.player.update(dt)` step of `update` (line 889). -/
def playerPhase (s : GameState) (dt now : ℚ) : GameState :=
  { s with player := s.player.update dt now }

/-- `GameManager.update(dt)` (lines 866-902): the full frame pipeline, in
source order — timer, speed progression, road animation, input, player
update, spawning, object updates, collision resolution, particles. -/
def update (sinq cosq : ℚ → ℚ) (piq : ℚ) (s : GameState) (fin : FrameIn) :
    GameState :=
  if s.gameState ≠ .playing then s
  else
    let s := { s with gameTime := s.gameTime - fin.dt }
    if s.gameTime ≤ 0 then endGame s
    else
      updateParticles
        (checkCollisions sinq cosq piq fin.now fin.coll
          (updateObjects sinq
            (spawnObjects piq
              (playerPhase
                (handleInput (applyRoad (updateSpeedProgression s) fin.dt)
                  fin.left fin.right)
                fin.dt fin.now)
              fin.now fin.spawn)
            fin.dt fin.now fin.npcUpd))
        fin.dt

/-- Iterate `update` over a sequence of frame inputs. -/
def runFrames (sinq cosq : ℚ → ℚ) (piq : ℚ) (s : GameState) :
    List FrameIn → GameState
  | [] => s
  | fin :: rest => runFrames sinq cosq piq (update sinq cosq piq s fin) rest

/-! ### Helper lemmas -/

/-- Iterate `Player.update` over a list of frame deltas (no damage or
collection events in between). -/
def Player.runUpdates (p : Player) (now : ℚ) : List ℚ → Player
  | [] => p
  | dt :: rest => (p.update dt now).runUpdates now rest

def qz : ℚ → ℚ := fun _ => 0
def zeroExplR : ExplR := ⟨0, 0, 0, 0⟩
def zeroBurstR : BurstR := ⟨0, 0, 0⟩
def zeroNpcUpdR : NpcUpdR := ⟨0, 0, 0, 0, 0⟩
def fe : ℕ → ℕ → ExplR := fun _ _ => zeroExplR
def zeroCollR : CollR :=
  ⟨fun _ _ => zeroBurstR, fun _ _ => zeroExplR, fun _ _ => zeroExplR, fun _ _ => zeroExplR⟩

/-- A road-work hazard placed at the player's fixed position (lane 1,
y = 500), so its box overlaps the player's. -/
def hzAtPlayer : Hazard := { Hazard.create 1 .road_work with y := 500 }

/-- Playing state whose player holds an active shield and overlaps one hazard. -/
def c1state : GameState :=
  { initialPlaying with
      player := { Player.init with shieldActive := true }
      hazards := [hzAtPlayer] }

/-- Playing state (no shield) overlapping one hazard. -/
def c1wstate : GameState := { initialPlaying with hazards := [hzAtPlayer] }

/-- NPC overlapping the player (lane 1, y = 500) with its avoidance offset
already at the claimed bound of 60 and avoidance direction +1. -/
def npcC6 : NPC :=
  { NPC.create 1 0 ⟨0, 0, 0, 0, 0, 0, 0, 0, 0, 0, 0⟩ with
      y := 500
      avoidanceOffset := 60
      avoidanceDirection := 1 }

def c6state : GameState := { initialPlaying with npcs := [npcC6] }

/-- A freshly spawned NPC in lane 0, far from the player. -/
def npcFar : NPC := NPC.create 0 0 ⟨0, 0, 0, 0, 0, 0, 0, 0, 0, 0, 0⟩

/-- Spawn draws that block every probabilistic category (chance draws at 1
fail every `<` test); NPC spawning is blocked by cooldown in the states
where this is used. -/
def blockSpawnR : SpawnR :=
  ⟨0, ⟨0, 0, 0, 0, 0, 0, 0, 0, 0, 0, 0⟩, 1, 0, ⟨0, 0, 0⟩, 1, 0, 1, 0, 0⟩

/-- A frame input with no key presses and blocking spawn draws. -/
def stdFrame (dt now : ℚ) : FrameIn :=
  { dt := dt, now := now, left := false, right := false, spawn := blockSpawnR,
    npcUpd := fun _ => zeroNpcUpdR, coll := zeroCollR }

/-- A playing session 100ms before timer expiry with power 55. -/
def c2state : GameState :=
  { initialPlaying with
      gameTime := 100
      player := { Player.init with power := 55 } }

/-- A playing session at half time whose power (1/100) decays to zero
within one 16ms frame, with no entities anywhere near. -/
def c3state : GameState :=
  { initialPlaying with
      gameTime := 50000
      player := { Player.init with power := 1 / 100 } }

/-- A playing state with 10 power (≤ the hazard damage of 15) overlapping
one hazard. -/
def c3kstate : GameState :=
  { initialPlaying with
      player := { Player.init with power := 10 }
      hazards := [hzAtPlayer] }

/-- State for the C4 counterexample: coin cooldown elapsed and cap free,
but the other categories' cooldowns have not elapsed at `now = 10000`. -/
def c4state : GameState :=
  { initialPlaying with
      lastSpawnTime := 10000
      lastPowerupSpawnTime := 10000
      lastHazardSpawnTime := 10000 }

/-- Spawn draws whose coin probability draw (0.9) fails the 0.35 chance. -/
def c4rand : SpawnR :=
  ⟨0, ⟨0, 0, 0, 0, 0, 0, 0, 0, 0, 0, 0⟩, 0.9, 0, ⟨0, 0, 0⟩, 1, 0, 1, 0, 0⟩

/-- A road-work hazard at the given position. -/
def mkHaz (x y : ℚ) : Hazard := { Hazard.create 0 .road_work with x := x, y := y }

/-- Spawn draws where the hazard chance draw (0) passes and the coin and
powerup chance draws (1) fail. -/
def c5rand : SpawnR :=
  ⟨0, ⟨0, 0, 0, 0, 0, 0, 0, 0, 0, 0, 0⟩, 1, 0, ⟨0, 0, 0⟩, 1, 0, 0, 0, 0⟩

/-- Playing state at the hazard population cap (8 hazards), one of them
overlapping the player; the hazard cooldown is long elapsed while the
other categories' cooldowns are not. -/
def c5state : GameState :=
  { initialPlaying with
      gameTime := 50000
      hazards := [mkHaz 200 500, mkHaz 100 50, mkHaz 100 90, mkHaz 100 130,
        mkHaz 100 170, mkHaz 100 210, mkHaz 100 250, mkHaz 100 290]
      lastSpawnTime := 1000010
      lastCoinSpawnTime := 1000010
      lastPowerupSpawnTime := 1000010
      lastHazardSpawnTime := 0 }

def c5fin1 : FrameIn :=
  { dt := 10, now := 1000000, left := false, right := false, spawn := c5rand,
    npcUpd := fun _ => zeroNpcUpdR, coll := zeroCollR }

/-- Cumulative elapsed session time in ms. -/
def elapsedMs (s : GameState) : ℚ := GAME_DURATION - s.gameTime

/-- The progression invariant: while playing, each latch is set exactly
when its threshold has been reached, and the multiplier is determined by
the latches. -/
def ProgressionInv (s : GameState) : Prop :=
  s.gameState = GState.playing →
    (s.speedIncreaseApplied20s = true ↔ 20000 ≤ elapsedMs s) ∧
    (s.speedIncreaseApplied40s = true ↔ 40000 ≤ elapsedMs s) ∧
    s.currentSpeedMultiplier =
      (if s.speedIncreaseApplied40s then SPEED_INCREASE_40S
       else if s.speedIncreaseApplied20s then SPEED_INCREASE_20S else 1)

/-- Clamping at zero composes: two successive clamped subtractions equal one
clamped subtraction of the sum, provided the second amount is nonnegative. -/
theorem max_zero_sub_sub (p a b : ℚ) (hb : 0 ≤ b) :
    max 0 (max 0 (p - a) - b) = max 0 (p - (a + b)) := by
  rcases le_total (p - a) 0 with h | h
  · rw [max_eq_left h, max_eq_left (by linarith), max_eq_left (by linarith)]
  · rw [max_eq_right h, sub_sub]

theorem Player.update_power (p : Player) (dt now : ℚ) :
    (p.update dt now).power = max 0 (p.power - POWER_DECAY_RATE * dt / 1000) := rfl

theorem Player.runUpdates_power_cons (now : ℚ) (rest : List ℚ)
    (hrest : ∀ x ∈ rest, 0 ≤ x) :
    ∀ (p : Player) (d : ℚ),
      (p.runUpdates now (d :: rest)).power =
        max 0 (p.power - POWER_DECAY_RATE * (d + rest.sum) / 1000) := by
  induction rest with
  | nil =>
    intro p d
    simp [Player.runUpdates, Player.update_power]
  | cons e rs ih =>
    intro p d
    have hrs : ∀ x ∈ rs, 0 ≤ x := fun x hx => hrest x (List.mem_cons_of_mem e hx)
    have he : 0 ≤ e := hrest e (List.mem_cons_self e rs)
    have hsum : 0 ≤ e + rs.sum := by
      have : 0 ≤ rs.sum := List.sum_nonneg hrs
      linarith
    have hb : 0 ≤ POWER_DECAY_RATE * (e + rs.sum) / 1000 := by
      rw [POWER_DECAY_RATE, one_mul]
      exact div_nonneg hsum (by norm_num)
    show ((p.update d now).runUpdates now (e :: rs)).power = _
    rw [ih hrs (p.update d now) e, Player.update_power,
      max_zero_sub_sub _ _ _ hb, List.sum_cons]
    congr 1
    ring

/-- C9 helper: power after a run of updates depends only on the total of
the (nonnegative) deltas. -/
theorem Player.runUpdates_power_total (p : Player) (now1 now2 : ℚ)
    (l1 l2 : List ℚ) (h1 : ∀ x ∈ l1, 0 < x) (h2 : ∀ x ∈ l2, 0 < x)
    (hsum : l1.sum = l2.sum) :
    (p.runUpdates now1 l1).power = (p.runUpdates now2 l2).power := by
  match l1, l2 with
  | [], [] => rfl
  | [], d :: rest =>
    exfalso
    have hpos : 0 < (d :: rest).sum := List.sum_pos _ h2 (by simp)
    rw [← hsum] at hpos
    simp at hpos
  | d :: rest, [] =>
    exfalso
    have hpos : 0 < (d :: rest).sum := List.sum_pos _ h1 (by simp)
    rw [hsum] at hpos
    simp at hpos
  | d1 :: r1, d2 :: r2 =>
    rw [Player.runUpdates_power_cons now1 r1
        (fun x hx => le_of_lt (h1 x (List.mem_cons_of_mem d1 hx))) p d1,
      Player.runUpdates_power_cons now2 r2
        (fun x hx => le_of_lt (h2 x (List.mem_cons_of_mem d2 hx))) p d2]
    have : d1 + r1.sum = d2 + r2.sum := by
      have e1 : (d1 :: r1).sum = d1 + r1.sum := by simp
      have e2 : (d2 :: r2).sum = d2 + r2.sum := by simp
      rw [← e1, ← e2, hsum]
    rw [this]

/-- C9: for any two sequences of positive frame deltas with equal sums,
iterating `Player.update` (with no damage or collection events) yields the
same final `power`: decay, including the clamp at zero, depends only on the
total elapsed time. -/
theorem c9_power_decay_framerate_independent (p : Player) (now1 now2 : ℚ)
    (l1 l2 : List ℚ) (h1 : ∀ x ∈ l1, 0 < x) (h2 : ∀ x ∈ l2, 0 < x)
    (hsum : l1.sum = l2.sum) :
    (p.runUpdates now1 l1).power = (p.runUpdates now2 l2).power :=
  Player.runUpdates_power_total p now1 now2 l1 l2 h1 h2 hsum

/-- Witness for C9 at concrete inputs: one 1000ms frame versus 400ms+600ms. -/
theorem c9_witness :
    (∀ x ∈ [(1000 : ℚ)], 0 < x) ∧ (∀ x ∈ [(400 : ℚ), 600], 0 < x) ∧
    ([(1000 : ℚ)].sum = [(400 : ℚ), 600].sum) ∧
    (Player.init.runUpdates 0 [1000]).power =
      (Player.init.runUpdates 0 [400, 600]).power :=
  ⟨by norm_num, by norm_num, by norm_num,
    c9_power_decay_framerate_independent Player.init 0 0 [1000] [400, 600]
      (by norm_num) (by norm_num) (by norm_num)⟩

/-- C7: `changeLane` is a no-op mid-transition (`laneChangeProgress < 1`);
when settled (`laneChangeProgress == 1`) the new target is the old target
plus the direction clamped to [0,2], and when that differs from the old
target the progress is reset to 0. -/
theorem c7_changeLane_gating (p : Player) (d : ℤ) :
    (p.laneChangeProgress < 1 → p.changeLane d = p) ∧
    (p.laneChangeProgress = 1 →
      (p.changeLane d).targetLane = max 0 (min 2 (p.targetLane + d)) ∧
      (max 0 (min 2 (p.targetLane + d)) ≠ p.targetLane →
        (p.changeLane d).laneChangeProgress = 0)) := by
  constructor
  · intro h
    simp [Player.changeLane, h]
  · intro h
    have hlt : ¬ p.laneChangeProgress < 1 := by rw [h]; exact lt_irrefl 1
    by_cases hne : max 0 (min 2 (p.targetLane + d)) ≠ p.targetLane
    · simp [Player.changeLane, hlt, hne]
    · push_neg at hne
      simp [Player.changeLane, hlt, hne]

/-- Witness for C7: a settled player in the middle lane retargets to lane 2
on direction +1 and resets progress. -/
theorem c7_witness :
    (({ Player.init with laneChangeProgress := 1 } : Player).changeLane 1).targetLane =
        max 0 (min 2 (({ Player.init with laneChangeProgress := 1 } : Player).targetLane + 1)) ∧
      (({ Player.init with laneChangeProgress := 1 } : Player).changeLane 1).laneChangeProgress = 0 :=
  ⟨((c7_changeLane_gating _ 1).2 (by decide)).1,
    ((c7_changeLane_gating _ 1).2 (by decide)).2 (by decide)⟩

/-- C10: a settled request against the lane boundary (target 0 with
direction -1, or target 2 with direction +1) returns the player entirely
unchanged; in particular `laneChangeProgress` stays 1. -/
theorem c10_boundary_request_noop (p : Player) (d : ℤ)
    (hset : p.laneChangeProgress = 1)
    (hbound : (p.targetLane = 0 ∧ d = -1) ∨ (p.targetLane = 2 ∧ d = 1)) :
    p.changeLane d = p := by
  have hlt : ¬ p.laneChangeProgress < 1 := by rw [hset]; exact lt_irrefl 1
  rcases hbound with ⟨ht, hd⟩ | ⟨ht, hd⟩ <;>
    simp [Player.changeLane, hlt, ht, hd]

/-- Witness for C10: settled player at lane 2 requesting +1. -/
theorem c10_witness :
    ({ Player.init with laneChangeProgress := 1, targetLane := 2 } : Player).changeLane 1 =
      { Player.init with laneChangeProgress := 1, targetLane := 2 } :=
  c10_boundary_request_noop _ 1 (by norm_num) (Or.inr (by norm_num))

/-! ### Hazard-branch analysis (for C1 and C3) -/

theorem Player.takeDamage_geom (p : Player) (a : ℚ) :
    (p.takeDamage a).x = p.x ∧ (p.takeDamage a).y = p.y ∧
    (p.takeDamage a).width = p.width ∧ (p.takeDamage a).height = p.height ∧
    (p.takeDamage a).shieldActive = p.shieldActive := by
  unfold Player.takeDamage
  split <;> simp

theorem Player.takeDamage_power_nonneg (p : Player) (a : ℚ) (hp : 0 ≤ p.power) :
    0 ≤ (p.takeDamage a).power := by
  unfold Player.takeDamage
  split
  · exact hp
  · exact le_max_left 0 _

theorem playerHitsHazard_congr {q p : Player} (hx : q.x = p.x) (hy : q.y = p.y)
    (hw : q.width = p.width) (hh : q.height = p.height) :
    playerHitsHazard q = playerHitsHazard p := by
  funext h
  simp [playerHitsHazard, hits, boundsOf, hx, hy, hw, hh]

theorem ite_endGame_player (c : Prop) [Decidable c] (s1 : GameState) :
    (if c then endGame s1 else s1).player = s1.player := by
  split <;> rfl

theorem ite_endGame_hazards (c : Prop) [Decidable c] (s1 : GameState) :
    (if c then endGame s1 else s1).hazards = s1.hazards := by
  split <;> rfl

/-- Full characterisation of the hazard `forEach`: the player's geometry
and shield are untouched; power is reduced by 15 per overlapping hazard
through `takeDamage` (so not at all when the shield is active), clamped at
zero; and the returned hazard list is the input with exactly the
overlapping hazards deactivated. -/
theorem processHazards_run (sinq cosq : ℚ → ℚ) (piq : ℚ) (f : ℕ → ℕ → ExplR)
    (hs : List Hazard) : ∀ (s : GameState) (i : ℕ), 0 ≤ s.player.power →
    ((processHazards sinq cosq piq f s i hs).1.player.x = s.player.x ∧
     (processHazards sinq cosq piq f s i hs).1.player.y = s.player.y ∧
     (processHazards sinq cosq piq f s i hs).1.player.width = s.player.width ∧
     (processHazards sinq cosq piq f s i hs).1.player.height = s.player.height ∧
     (processHazards sinq cosq piq f s i hs).1.player.shieldActive = s.player.shieldActive) ∧
    ((processHazards sinq cosq piq f s i hs).1.player.power =
      if s.player.shieldActive = true then s.player.power
      else max 0 (s.player.power -
        15 * ((hs.filter fun h => playerHitsHazard s.player h).length : ℚ))) ∧
    ((processHazards sinq cosq piq f s i hs).2 =
      hs.map fun h => if playerHitsHazard s.player h then { h with active := false } else h) := by
  induction hs with
  | nil =>
    intro s i hp
    refine ⟨⟨rfl, rfl, rfl, rfl, rfl⟩, ?_, rfl⟩
    simp only [processHazards, List.filter_nil, List.length_nil, Nat.cast_zero, mul_zero,
      sub_zero, max_eq_right hp]
    split <;> rfl
  | cons h rest ih =>
    intro s i hp
    by_cases hhit : playerHitsHazard s.player h = true
    · have hstep : processHazards sinq cosq piq f s i (h :: rest) =
          (let p1 := s.player.takeDamage 15
           let parts := createExplosion sinq cosq piq h.x h.y (f i)
           let s1 := { s with player := p1, particles := s.particles ++ parts }
           let s2 := if p1.power ≤ 0 then endGame s1 else s1
           let res := processHazards sinq cosq piq f s2 (i + 1) rest
           (res.1, { h with active := false } :: res.2)) := by
        rw [processHazards, if_pos hhit]
      rw [hstep]
      simp only []
      set p1 := s.player.takeDamage 15 with hp1
      set s1 : GameState :=
        { s with player := p1,
                 particles := s.particles ++ createExplosion sinq cosq piq h.x h.y (f i) }
        with hs1
      set s2 := if p1.power ≤ 0 then endGame s1 else s1 with hs2
      have hs2p : s2.player = p1 := by
        rw [hs2]
        exact ite_endGame_player _ s1
      obtain ⟨gx, gy, gw, gh, gs⟩ := Player.takeDamage_geom s.player 15
      have hp2 : 0 ≤ s2.player.power := by
        rw [hs2p]
        exact Player.takeDamage_power_nonneg s.player 15 hp
      obtain ⟨⟨ix, iy, iw, ihh, ish⟩, ipow, ilist⟩ :=
        ih s2 (i + 1) hp2
      have hcongr : playerHitsHazard (s.player.takeDamage 15) = playerHitsHazard s.player :=
        playerHitsHazard_congr gx gy gw gh
      refine ⟨⟨?_, ?_, ?_, ?_, ?_⟩, ?_, ?_⟩
      · rw [ix, hs2p, hp1, gx]
      · rw [iy, hs2p, hp1, gy]
      · rw [iw, hs2p, hp1, gw]
      · rw [ihh, hs2p, hp1, gh]
      · rw [ish, hs2p, hp1, gs]
      · rw [ipow, hs2p, hp1]
        rw [show (s.player.takeDamage 15).shieldActive = s.player.shieldActive from gs]
        by_cases hsh : s.player.shieldActive = true
        · rw [if_pos hsh, if_pos hsh]
          show (s.player.takeDamage 15).power = s.player.power
          unfold Player.takeDamage
          rw [if_pos hsh]
        · rw [if_neg hsh, if_neg hsh]
          have hdmg : (s.player.takeDamage 15).power = max 0 (s.player.power - 15) := by
            unfold Player.takeDamage
            rw [if_neg hsh]
          rw [hdmg, hcongr]
          have hcnt : 0 ≤ 15 * (((rest.filter fun h' =>
              playerHitsHazard s.player h').length : ℕ) : ℚ) := by positivity
          rw [max_zero_sub_sub _ _ _ hcnt]
          have : (((h :: rest).filter fun h' => playerHitsHazard s.player h').length : ℚ) =
              ((rest.filter fun h' => playerHitsHazard s.player h').length : ℚ) + 1 := by
            rw [List.filter_cons, if_pos hhit]
            push_cast [List.length_cons]
            ring
          rw [this]
          congr 1
          ring
      · rw [List.map_cons, if_pos hhit]
        rw [ilist, hs2p, hp1, hcongr]
    · have hstep : processHazards sinq cosq piq f s i (h :: rest) =
          ((processHazards sinq cosq piq f s (i + 1) rest).1,
           h :: (processHazards sinq cosq piq f s (i + 1) rest).2) := by
        rw [processHazards, if_neg hhit]
      rw [hstep]
      obtain ⟨⟨ix, iy, iw, ihh, ish⟩, ipow, ilist⟩ := ih s (i + 1) hp
      refine ⟨⟨ix, iy, iw, ihh, ish⟩, ?_, ?_⟩
      · rw [ipow]
        by_cases hsh : s.player.shieldActive = true
        · rw [if_pos hsh, if_pos hsh]
        · rw [if_neg hsh, if_neg hsh]
          rw [List.filter_cons, if_neg hhit]
      · rw [List.map_cons, if_neg hhit, ilist]

/-! ### Concrete oracles for counterexamples and witnesses -/

/-- C1 (amended): on overlap the hazard branch applies its fixed damage of
15 through `takeDamage`, which is blocked while the shield is active — the
power drops by 15 per overlapping hazard (clamped at 0) only when
`shieldActive` is false and is unchanged when it is true; every overlapping
hazard is deactivated in either case. -/
theorem c1_hazard_damage_respects_shield (sinq cosq : ℚ → ℚ) (piq : ℚ)
    (f : ℕ → ℕ → ExplR) (s : GameState) (hp : 0 ≤ s.player.power) :
    ((hazardCollisions sinq cosq piq f s).player.power =
      if s.player.shieldActive = true then s.player.power
      else max 0 (s.player.power -
        15 * ((s.hazards.filter fun h => playerHitsHazard s.player h).length : ℚ))) ∧
    (∀ h ∈ (hazardCollisions sinq cosq piq f s).hazards,
      playerHitsHazard s.player h = true → h.active = false) := by
  obtain ⟨_, ipow, ilist⟩ := processHazards_run sinq cosq piq f s.hazards s 0 hp
  constructor
  · show (processHazards sinq cosq piq f s 0 s.hazards).1.player.power = _
    exact ipow
  · intro h hmem hhit
    have hmem' : h ∈ (processHazards sinq cosq piq f s 0 s.hazards).2 := hmem
    rw [ilist] at hmem'
    obtain ⟨h0, _, heq⟩ := List.mem_map.mp hmem'
    by_cases hc : playerHitsHazard s.player h0 = true
    · rw [if_pos hc] at heq
      rw [← heq]
    · rw [if_neg hc] at heq
      rw [← heq] at hhit
      exact absurd hhit hc

/-- C1 counterexample: with the shield active and the player overlapping a
hazard, the resolver leaves the player's power unchanged (the shield blocks
hazard damage), refuting the claimed shield bypass; the hazard is still
deactivated. -/
theorem c1_counterexample :
    c1state.player.shieldActive = true ∧
    playerHitsHazard c1state.player hzAtPlayer = true ∧
    (hazardCollisions qz qz 0 fe c1state).player.power = c1state.player.power ∧
    c1state.player.power - 15 ≠ c1state.player.power ∧
    ((hazardCollisions qz qz 0 fe c1state).hazards.map fun h => h.active) = [false] := by
  refine ⟨rfl, ?_, ?_, ?_, ?_⟩
  · norm_num [playerHitsHazard, hits, boundsIntersect, boundsOf, c1state, hzAtPlayer,
      Hazard.create, Player.init, initialPlaying, laneX, CANVAS_WIDTH, CANVAS_HEIGHT,
      PLAYER_WIDTH, PLAYER_HEIGHT, NPC_SPEED]
  · norm_num [hazardCollisions, processHazards, playerHitsHazard, hits, boundsIntersect,
      boundsOf, Player.takeDamage, endGame, c1state, hzAtPlayer, Hazard.create,
      Player.init, initialPlaying, laneX, CANVAS_WIDTH, CANVAS_HEIGHT, PLAYER_WIDTH,
      PLAYER_HEIGHT, NPC_SPEED, MAX_POWER]
  · norm_num [c1state, Player.init, initialPlaying]
  · norm_num [hazardCollisions, processHazards, playerHitsHazard, hits, boundsIntersect,
      boundsOf, Player.takeDamage, endGame, c1state, hzAtPlayer, Hazard.create,
      Player.init, initialPlaying, laneX, CANVAS_WIDTH, CANVAS_HEIGHT, PLAYER_WIDTH,
      PLAYER_HEIGHT, NPC_SPEED, MAX_POWER]

/-- Witness for C1 at a concrete no-shield state with one overlapping hazard. -/
theorem c1_witness :
    (hazardCollisions qz qz 0 fe c1wstate).player.power =
      (if c1wstate.player.shieldActive = true then c1wstate.player.power
       else max 0 (c1wstate.player.power -
         15 * ((c1wstate.hazards.filter fun h => playerHitsHazard c1wstate.player h).length : ℚ))) :=
  (c1_hazard_damage_respects_shield qz qz 0 fe c1wstate
    (by norm_num [c1wstate, initialPlaying, Player.init])).1


/-! ### Spawner branch lemmas (C4) -/

theorem spawnNpcs_fields (piq : ℚ) (s : GameState) (now : ℚ) (r : SpawnR) :
    (spawnNpcs piq s now r).gameState = s.gameState ∧
    (spawnNpcs piq s now r).gameTime = s.gameTime ∧
    (spawnNpcs piq s now r).player = s.player ∧
    (spawnNpcs piq s now r).coins = s.coins ∧
    (spawnNpcs piq s now r).powerups = s.powerups ∧
    (spawnNpcs piq s now r).hazards = s.hazards ∧
    (spawnNpcs piq s now r).particles = s.particles ∧
    (spawnNpcs piq s now r).lastCoinSpawnTime = s.lastCoinSpawnTime ∧
    (spawnNpcs piq s now r).lastPowerupSpawnTime = s.lastPowerupSpawnTime ∧
    (spawnNpcs piq s now r).lastHazardSpawnTime = s.lastHazardSpawnTime ∧
    (spawnNpcs piq s now r).currentSpeedMultiplier = s.currentSpeedMultiplier ∧
    (spawnNpcs piq s now r).speedIncreaseApplied20s = s.speedIncreaseApplied20s ∧
    (spawnNpcs piq s now r).speedIncreaseApplied40s = s.speedIncreaseApplied40s := by
  unfold spawnNpcs
  split <;> simp

theorem spawnCoins_fields (piq : ℚ) (s : GameState) (now : ℚ) (r : SpawnR) :
    (spawnCoins piq s now r).gameState = s.gameState ∧
    (spawnCoins piq s now r).gameTime = s.gameTime ∧
    (spawnCoins piq s now r).player = s.player ∧
    (spawnCoins piq s now r).npcs = s.npcs ∧
    (spawnCoins piq s now r).powerups = s.powerups ∧
    (spawnCoins piq s now r).hazards = s.hazards ∧
    (spawnCoins piq s now r).particles = s.particles ∧
    (spawnCoins piq s now r).lastSpawnTime = s.lastSpawnTime ∧
    (spawnCoins piq s now r).lastPowerupSpawnTime = s.lastPowerupSpawnTime ∧
    (spawnCoins piq s now r).lastHazardSpawnTime = s.lastHazardSpawnTime ∧
    (spawnCoins piq s now r).currentSpeedMultiplier = s.currentSpeedMultiplier ∧
    (spawnCoins piq s now r).speedIncreaseApplied20s = s.speedIncreaseApplied20s ∧
    (spawnCoins piq s now r).speedIncreaseApplied40s = s.speedIncreaseApplied40s := by
  unfold spawnCoins
  split <;> simp

theorem spawnPowerups_fields (s : GameState) (now : ℚ) (r : SpawnR) :
    (spawnPowerups s now r).gameState = s.gameState ∧
    (spawnPowerups s now r).gameTime = s.gameTime ∧
    (spawnPowerups s now r).player = s.player ∧
    (spawnPowerups s now r).npcs = s.npcs ∧
    (spawnPowerups s now r).coins = s.coins ∧
    (spawnPowerups s now r).hazards = s.hazards ∧
    (spawnPowerups s now r).particles = s.particles ∧
    (spawnPowerups s now r).lastSpawnTime = s.lastSpawnTime ∧
    (spawnPowerups s now r).lastCoinSpawnTime = s.lastCoinSpawnTime ∧
    (spawnPowerups s now r).lastHazardSpawnTime = s.lastHazardSpawnTime ∧
    (spawnPowerups s now r).currentSpeedMultiplier = s.currentSpeedMultiplier ∧
    (spawnPowerups s now r).speedIncreaseApplied20s = s.speedIncreaseApplied20s ∧
    (spawnPowerups s now r).speedIncreaseApplied40s = s.speedIncreaseApplied40s := by
  unfold spawnPowerups
  split <;> simp

theorem spawnHazards_fields (s : GameState) (now : ℚ) (r : SpawnR) :
    (spawnHazards s now r).gameState = s.gameState ∧
    (spawnHazards s now r).gameTime = s.gameTime ∧
    (spawnHazards s now r).player = s.player ∧
    (spawnHazards s now r).npcs = s.npcs ∧
    (spawnHazards s now r).coins = s.coins ∧
    (spawnHazards s now r).powerups = s.powerups ∧
    (spawnHazards s now r).particles = s.particles ∧
    (spawnHazards s now r).lastSpawnTime = s.lastSpawnTime ∧
    (spawnHazards s now r).lastCoinSpawnTime = s.lastCoinSpawnTime ∧
    (spawnHazards s now r).lastPowerupSpawnTime = s.lastPowerupSpawnTime ∧
    (spawnHazards s now r).currentSpeedMultiplier = s.currentSpeedMultiplier ∧
    (spawnHazards s now r).speedIncreaseApplied20s = s.speedIncreaseApplied20s ∧
    (spawnHazards s now r).speedIncreaseApplied40s = s.speedIncreaseApplied40s := by
  unfold spawnHazards
  split <;> simp

theorem spawnNpcs_own (piq : ℚ) (s : GameState) (now : ℚ) (r : SpawnR) :
    (spawnNpcs piq s now r).lastSpawnTime =
      (if npcSpawnCond s now r then now else s.lastSpawnTime) ∧
    (spawnNpcs piq s now r).npcs.length =
      s.npcs.length + (if npcSpawnCond s now r then 1 else 0) := by
  unfold spawnNpcs
  split <;> rename_i h <;> simp [h]

theorem spawnCoins_own (piq : ℚ) (s : GameState) (now : ℚ) (r : SpawnR) :
    (spawnCoins piq s now r).lastCoinSpawnTime =
      (if coinSpawnCond s now r then now else s.lastCoinSpawnTime) ∧
    (spawnCoins piq s now r).coins.length =
      s.coins.length + (if coinSpawnCond s now r then 1 else 0) := by
  unfold spawnCoins
  split <;> rename_i h <;> simp [h]

theorem spawnPowerups_own (s : GameState) (now : ℚ) (r : SpawnR) :
    (spawnPowerups s now r).lastPowerupSpawnTime =
      (if powerupSpawnCond s now r then now else s.lastPowerupSpawnTime) ∧
    (spawnPowerups s now r).powerups.length =
      s.powerups.length + (if powerupSpawnCond s now r then 1 else 0) := by
  unfold spawnPowerups
  split <;> rename_i h <;> simp [h]

theorem spawnHazards_own (s : GameState) (now : ℚ) (r : SpawnR) :
    (spawnHazards s now r).lastHazardSpawnTime =
      (if hazardSpawnCond s now r then now else s.lastHazardSpawnTime) ∧
    (spawnHazards s now r).hazards.length =
      s.hazards.length + (if hazardSpawnCond s now r then 1 else 0) := by
  unfold spawnHazards
  split <;> rename_i h <;> simp [h]

theorem coinSpawnCond_congr {s' s : GameState} (now : ℚ) (r : SpawnR)
    (h1 : s'.coins = s.coins) (h2 : s'.lastCoinSpawnTime = s.lastCoinSpawnTime) :
    coinSpawnCond s' now r = coinSpawnCond s now r := by
  unfold coinSpawnCond
  rw [h1, h2]

theorem powerupSpawnCond_congr {s' s : GameState} (now : ℚ) (r : SpawnR)
    (h1 : s'.powerups = s.powerups) (h2 : s'.lastPowerupSpawnTime = s.lastPowerupSpawnTime) :
    powerupSpawnCond s' now r = powerupSpawnCond s now r := by
  unfold powerupSpawnCond
  rw [h1, h2]

theorem hazardSpawnCond_congr {s' s : GameState} (now : ℚ) (r : SpawnR)
    (h1 : s'.hazards = s.hazards) (h2 : s'.lastHazardSpawnTime = s.lastHazardSpawnTime) :
    hazardSpawnCond s' now r = hazardSpawnCond s now r := by
  unfold hazardSpawnCond
  rw [h1, h2]

/-- C4 (amended): each category's cooldown timer is reset to the current
time exactly when that category's spawn succeeds (equivalently: exactly
when one entity of that category is appended).  For NPCs, success requires
cooldown, cap, spacing and per-lane density; for coins/powerups/hazards it
requires cooldown, cap and the probability draw passing — a failed draw
leaves the timer untouched, contrary to the claim. -/
theorem c4_cooldown_reset_iff_spawn (piq : ℚ) (s : GameState) (now : ℚ) (r : SpawnR) :
    ((spawnObjects piq s now r).lastSpawnTime =
      if npcSpawnCond s now r then now else s.lastSpawnTime) ∧
    ((spawnObjects piq s now r).npcs.length =
      s.npcs.length + (if npcSpawnCond s now r then 1 else 0)) ∧
    ((spawnObjects piq s now r).lastCoinSpawnTime =
      if coinSpawnCond s now r then now else s.lastCoinSpawnTime) ∧
    ((spawnObjects piq s now r).coins.length =
      s.coins.length + (if coinSpawnCond s now r then 1 else 0)) ∧
    ((spawnObjects piq s now r).lastPowerupSpawnTime =
      if powerupSpawnCond s now r then now else s.lastPowerupSpawnTime) ∧
    ((spawnObjects piq s now r).powerups.length =
      s.powerups.length + (if powerupSpawnCond s now r then 1 else 0)) ∧
    ((spawnObjects piq s now r).lastHazardSpawnTime =
      if hazardSpawnCond s now r then now else s.lastHazardSpawnTime) ∧
    ((spawnObjects piq s now r).hazards.length =
      s.hazards.length + (if hazardSpawnCond s now r then 1 else 0)) := by
  obtain ⟨_, _, _, n4, n5, n6, _, n8, n9, n10, _, _, _⟩ := spawnNpcs_fields piq s now r
  obtain ⟨_, _, _, c4f, c5f, c6f, _, c8f, c9f, c10f, _, _, _⟩ :=
    spawnCoins_fields piq (spawnNpcs piq s now r) now r
  obtain ⟨_, _, _, p4f, p5f, p6f, _, p8f, p9f, p10f, _, _, _⟩ :=
    spawnPowerups_fields (spawnCoins piq (spawnNpcs piq s now r) now r) now r
  obtain ⟨_, _, _, h4f, h5f, h6f, _, h8f, h9f, h10f, _, _, _⟩ :=
    spawnHazards_fields
      (spawnPowerups (spawnCoins piq (spawnNpcs piq s now r) now r) now r) now r
  obtain ⟨no1, no2⟩ := spawnNpcs_own piq s now r
  obtain ⟨co1, co2⟩ := spawnCoins_own piq (spawnNpcs piq s now r) now r
  obtain ⟨po1, po2⟩ := spawnPowerups_own (spawnCoins piq (spawnNpcs piq s now r) now r) now r
  obtain ⟨ho1, ho2⟩ := spawnHazards_own
    (spawnPowerups (spawnCoins piq (spawnNpcs piq s now r) now r) now r) now r
  have ccond : coinSpawnCond (spawnNpcs piq s now r) now r = coinSpawnCond s now r :=
    coinSpawnCond_congr now r n4 n8
  have pcond : powerupSpawnCond (spawnCoins piq (spawnNpcs piq s now r) now r) now r =
      powerupSpawnCond s now r := by
    rw [powerupSpawnCond_congr now r c5f c9f, powerupSpawnCond_congr now r n5 n9]
  have hcond : hazardSpawnCond
      (spawnPowerups (spawnCoins piq (spawnNpcs piq s now r) now r) now r) now r =
      hazardSpawnCond s now r := by
    rw [hazardSpawnCond_congr now r p6f p10f, hazardSpawnCond_congr now r c6f c10f,
      hazardSpawnCond_congr now r n6 n10]
  unfold spawnObjects
  refine ⟨?_, ?_, ?_, ?_, ?_, ?_, ?_, ?_⟩
  · rw [h8f, p8f, c8f, no1]
  · rw [h4f, p4f, c4f, no2]
  · rw [h9f, p9f, co1, ccond, n8]
  · rw [h5f, p5f, co2, ccond, n4]
  · rw [h10f, po1, pcond, c9f, n9]
  · rw [h6f, po2, pcond, c5f, n5]
  · rw [ho1, hcond, p10f, c10f, n10]
  · rw [ho2, hcond, p6f, c6f, n6]

/-! ### NPC avoidance-offset analysis (C6) -/

theorem NPC.updateForwardMovement_fields (n : NPC) (dt : ℚ) (u : NpcUpdR) :
    (n.updateForwardMovement dt u).x = n.x ∧
    (n.updateForwardMovement dt u).y = n.y ∧
    (n.updateForwardMovement dt u).velocityX = n.velocityX ∧
    (n.updateForwardMovement dt u).velocityY = n.velocityY ∧
    (n.updateForwardMovement dt u).avoidanceOffset = n.avoidanceOffset ∧
    (n.updateForwardMovement dt u).avoidanceDistance = n.avoidanceDistance ∧
    (n.updateForwardMovement dt u).maxAvoidanceSpeed = n.maxAvoidanceSpeed := by
  unfold NPC.updateForwardMovement
  simp only []
  split_ifs <;> simp [apply_ite]

theorem NPC.updateLaneChanging_fields (n : NPC) (dt : ℚ) (u : NpcUpdR) :
    (n.updateLaneChanging dt u).x = n.x ∧
    (n.updateLaneChanging dt u).y = n.y ∧
    (n.updateLaneChanging dt u).velocityX = n.velocityX ∧
    (n.updateLaneChanging dt u).velocityY = n.velocityY ∧
    (n.updateLaneChanging dt u).avoidanceOffset = n.avoidanceOffset ∧
    (n.updateLaneChanging dt u).avoidanceDistance = n.avoidanceDistance ∧
    (n.updateLaneChanging dt u).maxAvoidanceSpeed = n.maxAvoidanceSpeed := by
  unfold NPC.updateLaneChanging
  simp only []
  split_ifs <;> simp [apply_ite]

/-- Projection of `NPC.update` onto `avoidanceOffset`: clamped
accumulation toward ±60 while the proximity trigger holds, 0.9-decay
otherwise, untouched when no player reference is given. -/
theorem NPC.update_avoidanceOffset (sinq : ℚ → ℚ) (n : NPC) (dt : ℚ)
    (pl : Option Player) (u : NpcUpdR) :
    (NPC.update sinq n dt pl u).avoidanceOffset =
      match pl with
      | none => n.avoidanceOffset
      | some p =>
        if |n.y + n.velocityY * (dt / 1000) - p.y| < n.avoidanceDistance ∧
            |n.x + n.velocityX * (dt / 1000) - p.x| < 80 then
          max (-60) (min 60 (n.avoidanceOffset +
            (if p.x < n.x + n.velocityX * (dt / 1000) then (1 : ℚ) else -1) *
              (n.maxAvoidanceSpeed *
                max 0 ((n.avoidanceDistance - |n.y + n.velocityY * (dt / 1000) - p.y|) /
                  n.avoidanceDistance)) * (dt / 1000)))
        else n.avoidanceOffset * 0.9 := by
  obtain ⟨f1, f2, f3, f4, f5, f6, f7⟩ :=
    NPC.updateForwardMovement_fields
      { n with x := n.x + n.velocityX * (dt / 1000), y := n.y + n.velocityY * (dt / 1000) } dt u
  obtain ⟨l1, l2, l3, l4, l5, l6, l7⟩ :=
    NPC.updateLaneChanging_fields
      (NPC.updateForwardMovement
        { n with x := n.x + n.velocityX * (dt / 1000), y := n.y + n.velocityY * (dt / 1000) }
        dt u) dt u
  unfold NPC.update
  simp only []
  rw [apply_ite (fun m : NPC => m.avoidanceOffset)]
  cases pl with
  | none =>
    simp only [l5, f5, ite_self]
  | some p =>
    rw [apply_ite (fun m : NPC => m.avoidanceOffset)]
    simp only [l1, l2, l5, l6, l7, f1, f2, f5, f6, f7, ite_self]

/-- C6 (amended): the avoidance offset is bounded by ±80, not ±60:
`NPC.update` clamps to ±60 while the proximity trigger holds and decays by
0.9 otherwise (both preserving |offset| ≤ 80), while the collision
resolver's nudge clamps to ±80; and on any frame with a player reference
where the trigger condition fails the offset is exactly multiplied by 0.9. -/
theorem c6_avoidance_offset_bounds :
    (∀ (sinq : ℚ → ℚ) (n : NPC) (dt : ℚ) (pl : Option Player) (u : NpcUpdR),
      |n.avoidanceOffset| ≤ 80 → |(NPC.update sinq n dt pl u).avoidanceOffset| ≤ 80) ∧
    (∀ n : NPC, |(npcNudge n).avoidanceOffset| ≤ 80) ∧
    (∀ (sinq : ℚ → ℚ) (n : NPC) (dt : ℚ) (p : Player) (u : NpcUpdR),
      ¬(|n.y + n.velocityY * (dt / 1000) - p.y| < n.avoidanceDistance ∧
        |n.x + n.velocityX * (dt / 1000) - p.x| < 80) →
      (NPC.update sinq n dt (some p) u).avoidanceOffset = n.avoidanceOffset * 0.9) := by
  refine ⟨?_, ?_, ?_⟩
  · intro sinq n dt pl u hb
    rw [NPC.update_avoidanceOffset]
    cases pl with
    | none => exact hb
    | some p =>
      simp only []
      by_cases h : |n.y + n.velocityY * (dt / 1000) - p.y| < n.avoidanceDistance ∧
          |n.x + n.velocityX * (dt / 1000) - p.x| < 80
      · rw [if_pos h, abs_le]
        constructor
        · exact le_trans (by norm_num) (le_max_left _ _)
        · exact le_trans (max_le (by norm_num) (min_le_left _ _)) (by norm_num)
      · rw [if_neg h, abs_mul]
        have h9 : |(0.9 : ℚ)| = 0.9 := by norm_num
        rw [h9]
        have h1 : |n.avoidanceOffset| * 0.9 ≤ 80 * 0.9 :=
          mul_le_mul_of_nonneg_right hb (by norm_num)
        linarith
  · intro n
    unfold npcNudge
    simp only []
    rw [abs_le]
    constructor
    · exact le_trans (by norm_num) (le_max_left _ _)
    · exact max_le (by norm_num) (min_le_left _ _)
  · intro sinq n dt p u h
    rw [NPC.update_avoidanceOffset]
    simp only []
    rw [if_neg h]

/-- C6 counterexample: an NPC whose offset is 60 (inside the claimed
[-60,60] bound) and overlaps the player leaves the collision resolver with
offset 80 — the resolver nudge clamps at ±80, so ±60 is not an invariant. -/
theorem c6_counterexample :
    |npcC6.avoidanceOffset| ≤ 60 ∧
    playerHitsNpc c6state.player npcC6 = true ∧
    ((npcCollisions qz qz 0 fe c6state).npcs.map fun m => m.avoidanceOffset) = [80] ∧
    ¬(|(80 : ℚ)| ≤ 60) := by
  refine ⟨by norm_num [npcC6, NPC.create], ?_, ?_, by norm_num⟩
  · norm_num [playerHitsNpc, hits, boundsIntersect, boundsOf, c6state, npcC6, NPC.create,
      carTypeAt, Int.floor_zero, laneX, initialPlaying, Player.init, CANVAS_WIDTH,
      CANVAS_HEIGHT, PLAYER_WIDTH, PLAYER_HEIGHT, NPC_SPEED]
  · norm_num [npcCollisions, processNpcs, npcNudge, playerHitsNpc, hits, boundsIntersect,
      boundsOf, Player.takeDamage, endGame, c6state, npcC6, NPC.create, carTypeAt,
      Int.floor_zero, laneX, initialPlaying, Player.init, CANVAS_WIDTH, CANVAS_HEIGHT,
      PLAYER_WIDTH, PLAYER_HEIGHT, NPC_SPEED, MAX_POWER]

/-- Witness for C6 at concrete inputs: the ±80 bound after an update and
after a nudge of `npcC6`, and the 0.9 decay for a far-away NPC. -/
theorem c6_witness :
    |(NPC.update qz npcC6 16 (some Player.init) zeroNpcUpdR).avoidanceOffset| ≤ 80 ∧
    |(npcNudge npcC6).avoidanceOffset| ≤ 80 ∧
    (NPC.update qz npcFar 16 (some Player.init) zeroNpcUpdR).avoidanceOffset =
      npcFar.avoidanceOffset * 0.9 :=
  ⟨c6_avoidance_offset_bounds.1 qz npcC6 16 (some Player.init) zeroNpcUpdR
      (by norm_num [npcC6, NPC.create]),
    c6_avoidance_offset_bounds.2.1 npcC6,
    c6_avoidance_offset_bounds.2.2 qz npcFar 16 Player.init zeroNpcUpdR
      (by norm_num [npcFar, NPC.create, carTypeAt, Int.floor_zero, laneX, Player.init,
        CANVAS_WIDTH, CANVAS_HEIGHT, NPC_SPEED])⟩

/-! ### Frame-pipeline preservation lemmas (C2, C3, C5, C8) -/

theorem updateSpeedProgression_fields (s : GameState) :
    (updateSpeedProgression s).gameState = s.gameState ∧
    (updateSpeedProgression s).gameTime = s.gameTime ∧
    (updateSpeedProgression s).player = s.player ∧
    (updateSpeedProgression s).npcs = s.npcs ∧
    (updateSpeedProgression s).coins = s.coins ∧
    (updateSpeedProgression s).powerups = s.powerups ∧
    (updateSpeedProgression s).hazards = s.hazards ∧
    (updateSpeedProgression s).particles = s.particles ∧
    (updateSpeedProgression s).lastSpawnTime = s.lastSpawnTime ∧
    (updateSpeedProgression s).lastCoinSpawnTime = s.lastCoinSpawnTime ∧
    (updateSpeedProgression s).lastPowerupSpawnTime = s.lastPowerupSpawnTime ∧
    (updateSpeedProgression s).lastHazardSpawnTime = s.lastHazardSpawnTime := by
  unfold updateSpeedProgression
  simp only []
  split_ifs <;> simp

theorem handleInput_fields (s : GameState) (l r : Bool) :
    (handleInput s l r).gameState = s.gameState ∧
    (handleInput s l r).gameTime = s.gameTime ∧
    (handleInput s l r).npcs = s.npcs ∧
    (handleInput s l r).coins = s.coins ∧
    (handleInput s l r).powerups = s.powerups ∧
    (handleInput s l r).hazards = s.hazards ∧
    (handleInput s l r).particles = s.particles ∧
    (handleInput s l r).lastSpawnTime = s.lastSpawnTime ∧
    (handleInput s l r).lastCoinSpawnTime = s.lastCoinSpawnTime ∧
    (handleInput s l r).lastPowerupSpawnTime = s.lastPowerupSpawnTime ∧
    (handleInput s l r).lastHazardSpawnTime = s.lastHazardSpawnTime ∧
    (handleInput s l r).currentSpeedMultiplier = s.currentSpeedMultiplier ∧
    (handleInput s l r).speedIncreaseApplied20s = s.speedIncreaseApplied20s ∧
    (handleInput s l r).speedIncreaseApplied40s = s.speedIncreaseApplied40s := by
  unfold handleInput
  simp only []
  split_ifs <;> simp

theorem spawnNpcs_noop (piq : ℚ) (s : GameState) (now : ℚ) (r : SpawnR)
    (h : ¬(NPC_SPAWN_INTERVAL < now - s.lastSpawnTime)) :
    spawnNpcs piq s now r = s := by
  have hc : npcSpawnCond s now r = false := by simp [npcSpawnCond, h]
  unfold spawnNpcs
  rw [hc]
  simp

theorem spawnCoins_noop (piq : ℚ) (s : GameState) (now : ℚ) (r : SpawnR)
    (h : ¬(COIN_SPAWN_INTERVAL < now - s.lastCoinSpawnTime)) :
    spawnCoins piq s now r = s := by
  have hc : coinSpawnCond s now r = false := by simp [coinSpawnCond, h]
  unfold spawnCoins
  rw [hc]
  simp

theorem spawnPowerups_noop (s : GameState) (now : ℚ) (r : SpawnR)
    (h : ¬((1000 : ℚ) < now - s.lastPowerupSpawnTime)) :
    spawnPowerups s now r = s := by
  have hc : powerupSpawnCond s now r = false := by simp [powerupSpawnCond, h]
  unfold spawnPowerups
  rw [hc]
  simp

theorem spawnHazards_noop (s : GameState) (now : ℚ) (r : SpawnR)
    (h : ¬((1500 : ℚ) < now - s.lastHazardSpawnTime)) :
    spawnHazards s now r = s := by
  have hc : hazardSpawnCond s now r = false := by simp [hazardSpawnCond, h]
  unfold spawnHazards
  rw [hc]
  simp

theorem updateObjects_empty (sinq : ℚ → ℚ) (s : GameState) (dt now : ℚ) (us : ℕ → NpcUpdR)
    (hn : s.npcs = []) (hc : s.coins = []) (hp : s.powerups = []) (hh : s.hazards = []) :
    updateObjects sinq s dt now us = s := by
  unfold updateObjects
  rw [hn, hc, hp, hh]
  show { s with npcs := [], coins := [], powerups := [], hazards := [] } = s
  rw [← hn, ← hc, ← hp, ← hh]

theorem coinCollisions_empty (sinq cosq : ℚ → ℚ) (piq now : ℚ) (f : ℕ → ℕ → BurstR)
    (s : GameState) (h : s.coins = []) :
    coinCollisions sinq cosq piq now f s = s := by
  unfold coinCollisions
  rw [h]
  show { s with coins := [] } = s
  rw [← h]

theorem powerupCollisions_empty (sinq cosq : ℚ → ℚ) (piq now : ℚ) (f : ℕ → ℕ → ExplR)
    (s : GameState) (h : s.powerups = []) :
    powerupCollisions sinq cosq piq now f s = s := by
  unfold powerupCollisions
  rw [h]
  show { s with powerups := [] } = s
  rw [← h]

theorem npcCollisions_empty (sinq cosq : ℚ → ℚ) (piq : ℚ) (f : ℕ → ℕ → ExplR)
    (s : GameState) (h : s.npcs = []) :
    npcCollisions sinq cosq piq f s = s := by
  unfold npcCollisions
  rw [h]
  show { s with npcs := [] } = s
  rw [← h]

theorem hazardCollisions_empty (sinq cosq : ℚ → ℚ) (piq : ℚ) (f : ℕ → ℕ → ExplR)
    (s : GameState) (h : s.hazards = []) :
    hazardCollisions sinq cosq piq f s = s := by
  unfold hazardCollisions
  rw [h]
  show { s with hazards := [] } = s
  rw [← h]

theorem updateParticles_gameState (s : GameState) (dt : ℚ) :
    (updateParticles s dt).gameState = s.gameState := rfl

/-! ### C2: the timer-expiry transition -/

/-- C2: when the session timer reaches zero with power still positive, the
driver calls `endGame()`, which sets the state to `game_over` — never to
`lead_form` (`GAME_STATE.LEAD_FORM` and `showLeadScreen` are dead code). -/
theorem c2_timer_expiry_routes_to_game_over :
    (0 : ℚ) < c2state.player.power ∧
    c2state.gameState = GState.playing ∧
    (update qz qz 0 c2state (stdFrame 200 0)).gameState = GState.game_over ∧
    (update qz qz 0 c2state (stdFrame 200 0)).gameState ≠ GState.lead_form := by
  refine ⟨by norm_num [c2state, Player.init, initialPlaying], rfl, ?_, ?_⟩ <;>
    norm_num [update, endGame, c2state, stdFrame, initialPlaying, Player.init] <;>
    decide

/-! ### C3: power reaching zero by decay alone -/

/-- C3 counterexample: a frame in which the player's power reaches exactly
zero through continuous decay alone ends with `gameState` still `playing`
— no terminal transition occurs in that frame's update, because the
power-zero check only runs inside the NPC and hazard collision branches. -/
theorem c3_counterexample :
    c3state.gameState = GState.playing ∧
    0 < c3state.player.power ∧
    (update qz qz 0 c3state (stdFrame 16 0)).player.power = 0 ∧
    (update qz qz 0 c3state (stdFrame 16 0)).gameState = GState.playing := by
  refine ⟨rfl, by norm_num [c3state, Player.init, initialPlaying], ?_, ?_⟩ <;>
    norm_num [update, updateSpeedProgression, applyRoad, playerPhase, handleInput,
      Player.update, spawnObjects, spawnNpcs, spawnCoins, spawnPowerups, spawnHazards,
      npcSpawnCond, coinSpawnCond, powerupSpawnCond, hazardSpawnCond, updateObjects,
      checkCollisions, hazardCollisions, npcCollisions, powerupCollisions, coinCollisions,
      processHazards, processNpcs, processPowerups, processCoins, updateParticles, endGame,
      c3state, stdFrame, blockSpawnR, initialPlaying, Player.init, laneX, CANVAS_WIDTH,
      CANVAS_HEIGHT, GAME_DURATION, LANE_CHANGE_DURATION, POWER_DECAY_RATE,
      NPC_SPAWN_INTERVAL, COIN_SPAWN_INTERVAL, SPEED_INCREASE_20S, SPEED_INCREASE_40S]

theorem applyRoad_fields (s : GameState) (dt : ℚ) :
    (applyRoad s dt).gameState = s.gameState ∧
    (applyRoad s dt).player = s.player ∧
    (applyRoad s dt).npcs = s.npcs ∧
    (applyRoad s dt).coins = s.coins ∧
    (applyRoad s dt).powerups = s.powerups ∧
    (applyRoad s dt).hazards = s.hazards ∧
    (applyRoad s dt).particles = s.particles ∧
    (applyRoad s dt).gameTime = s.gameTime ∧
    (applyRoad s dt).lastSpawnTime = s.lastSpawnTime ∧
    (applyRoad s dt).lastCoinSpawnTime = s.lastCoinSpawnTime ∧
    (applyRoad s dt).lastPowerupSpawnTime = s.lastPowerupSpawnTime ∧
    (applyRoad s dt).lastHazardSpawnTime = s.lastHazardSpawnTime ∧
    (applyRoad s dt).currentSpeedMultiplier = s.currentSpeedMultiplier ∧
    (applyRoad s dt).speedIncreaseApplied20s = s.speedIncreaseApplied20s ∧
    (applyRoad s dt).speedIncreaseApplied40s = s.speedIncreaseApplied40s := by
  unfold applyRoad
  simp

theorem playerPhase_fields (s : GameState) (dt now : ℚ) :
    (playerPhase s dt now).gameState = s.gameState ∧
    (playerPhase s dt now).npcs = s.npcs ∧
    (playerPhase s dt now).coins = s.coins ∧
    (playerPhase s dt now).powerups = s.powerups ∧
    (playerPhase s dt now).hazards = s.hazards ∧
    (playerPhase s dt now).particles = s.particles ∧
    (playerPhase s dt now).gameTime = s.gameTime ∧
    (playerPhase s dt now).lastSpawnTime = s.lastSpawnTime ∧
    (playerPhase s dt now).lastCoinSpawnTime = s.lastCoinSpawnTime ∧
    (playerPhase s dt now).lastPowerupSpawnTime = s.lastPowerupSpawnTime ∧
    (playerPhase s dt now).lastHazardSpawnTime = s.lastHazardSpawnTime ∧
    (playerPhase s dt now).currentSpeedMultiplier = s.currentSpeedMultiplier ∧
    (playerPhase s dt now).speedIncreaseApplied20s = s.speedIncreaseApplied20s ∧
    (playerPhase s dt now).speedIncreaseApplied40s = s.speedIncreaseApplied40s := by
  unfold playerPhase
  simp

/-- C3 (amended): power reaching zero does not by itself end the session —
a frame with no entities and no spawns leaves `gameState` playing whatever
the player's power is (decay alone never triggers game over); the terminal
check runs only inside the collision branches: a hazard overlap that drives
power to zero sets `game_over` in that same resolver pass. -/
theorem c3_zero_power_semantics :
    (∀ (sinq cosq : ℚ → ℚ) (piq : ℚ) (s : GameState) (fin : FrameIn),
      s.gameState = GState.playing →
      0 < s.gameTime - fin.dt →
      s.npcs = [] → s.coins = [] → s.powerups = [] → s.hazards = [] →
      ¬(NPC_SPAWN_INTERVAL < fin.now - s.lastSpawnTime) →
      ¬(COIN_SPAWN_INTERVAL < fin.now - s.lastCoinSpawnTime) →
      ¬((1000 : ℚ) < fin.now - s.lastPowerupSpawnTime) →
      ¬((1500 : ℚ) < fin.now - s.lastHazardSpawnTime) →
      (update sinq cosq piq s fin).gameState = GState.playing) ∧
    (∀ (sinq cosq : ℚ → ℚ) (piq : ℚ) (f : ℕ → ℕ → ExplR) (s : GameState) (h : Hazard),
      s.hazards = [h] → s.player.shieldActive = false →
      playerHitsHazard s.player h = true → s.player.power ≤ 15 →
      (hazardCollisions sinq cosq piq f s).gameState = GState.game_over) := by
  constructor
  · intro sinq cosq piq s fin hs hgt hn hc hpw hhz t1 t2 t3 t4
    unfold update
    simp only []
    split_ifs with h1 h2
    · exact hs
    · exfalso
      simp only [] at h2
      linarith
    · obtain ⟨pg, _, _, pn, pc, ppu, phz, _, pt1, pt2, pt3, pt4⟩ :=
        updateSpeedProgression_fields { s with gameTime := s.gameTime - fin.dt }
      obtain ⟨ag, _, an, ac, apu, ahz, _, _, at1, at2, at3, at4, _, _, _⟩ :=
        applyRoad_fields (updateSpeedProgression { s with gameTime := s.gameTime - fin.dt })
          fin.dt
      obtain ⟨hg, _, hn2, hc2, hpu2, hhz2, _, ht1, ht2, ht3, ht4, _, _, _⟩ :=
        handleInput_fields
          (applyRoad (updateSpeedProgression { s with gameTime := s.gameTime - fin.dt })
            fin.dt) fin.left fin.right
      obtain ⟨yg, yn, yc, ypu, yhz, _, _, yt1, yt2, yt3, yt4, _, _, _⟩ :=
        playerPhase_fields
          (handleInput
            (applyRoad (updateSpeedProgression { s with gameTime := s.gameTime - fin.dt })
              fin.dt) fin.left fin.right) fin.dt fin.now
      have xn : (playerPhase
          (handleInput
            (applyRoad (updateSpeedProgression { s with gameTime := s.gameTime - fin.dt })
              fin.dt) fin.left fin.right) fin.dt fin.now).npcs = [] := by
        rw [yn, hn2, an, pn]
        exact hn
      have xc : (playerPhase
          (handleInput
            (applyRoad (updateSpeedProgression { s with gameTime := s.gameTime - fin.dt })
              fin.dt) fin.left fin.right) fin.dt fin.now).coins = [] := by
        rw [yc, hc2, ac, pc]
        exact hc
      have xpu : (playerPhase
          (handleInput
            (applyRoad (updateSpeedProgression { s with gameTime := s.gameTime - fin.dt })
              fin.dt) fin.left fin.right) fin.dt fin.now).powerups = [] := by
        rw [ypu, hpu2, apu, ppu]
        exact hpw
      have xhz : (playerPhase
          (handleInput
            (applyRoad (updateSpeedProgression { s with gameTime := s.gameTime - fin.dt })
              fin.dt) fin.left fin.right) fin.dt fin.now).hazards = [] := by
        rw [yhz, hhz2, ahz, phz]
        exact hhz
      have e1 : spawnObjects piq
          (playerPhase
            (handleInput
              (applyRoad (updateSpeedProgression { s with gameTime := s.gameTime - fin.dt })
                fin.dt) fin.left fin.right) fin.dt fin.now) fin.now fin.spawn =
          playerPhase
            (handleInput
              (applyRoad (updateSpeedProgression { s with gameTime := s.gameTime - fin.dt })
                fin.dt) fin.left fin.right) fin.dt fin.now := by
        unfold spawnObjects
        rw [spawnNpcs_noop _ _ _ _ (by rw [yt1, ht1, at1, pt1]; exact t1)]
        rw [spawnCoins_noop _ _ _ _ (by rw [yt2, ht2, at2, pt2]; exact t2)]
        rw [spawnPowerups_noop _ _ _ (by rw [yt3, ht3, at3, pt3]; exact t3)]
        rw [spawnHazards_noop _ _ _ (by rw [yt4, ht4, at4, pt4]; exact t4)]
      rw [e1]
      rw [updateObjects_empty _ _ _ _ _ xn xc xpu xhz]
      unfold checkCollisions
      rw [coinCollisions_empty _ _ _ _ _ _ xc, powerupCollisions_empty _ _ _ _ _ _ xpu,
        npcCollisions_empty _ _ _ _ _ xn, hazardCollisions_empty _ _ _ _ _ xhz,
        updateParticles_gameState]
      rw [yg, hg, ag, pg]
      exact hs
  · intro sinq cosq piq f s h hhz hsh hhit hpow
    unfold hazardCollisions
    rw [hhz, processHazards, if_pos hhit]
    simp only []
    have hp1 : (s.player.takeDamage 15).power = max 0 (s.player.power - 15) := by
      unfold Player.takeDamage
      rw [if_neg (by simp [hsh])]
    have hle : (s.player.takeDamage 15).power ≤ 0 := by
      rw [hp1]
      exact max_le le_rfl (by linarith)
    rw [if_pos hle, processHazards]
    simp [endGame]

/-- Witness for C3: the decay-only frame from `c3state` stays playing, and
the hazard overlap at 10 power in `c3kstate` reaches `game_over`. -/
theorem c3_witness :
    (update qz qz 0 c3state (stdFrame 16 0)).gameState = GState.playing ∧
    (hazardCollisions qz qz 0 fe c3kstate).gameState = GState.game_over :=
  ⟨c3_zero_power_semantics.1 qz qz 0 c3state (stdFrame 16 0) rfl
      (by norm_num [c3state, stdFrame, initialPlaying]) rfl rfl rfl rfl
      (by norm_num [c3state, stdFrame, initialPlaying, NPC_SPAWN_INTERVAL])
      (by norm_num [c3state, stdFrame, initialPlaying, COIN_SPAWN_INTERVAL])
      (by norm_num [c3state, stdFrame, initialPlaying])
      (by norm_num [c3state, stdFrame, initialPlaying]),
    c3_zero_power_semantics.2 qz qz 0 fe c3kstate hzAtPlayer rfl rfl
      (by norm_num [playerHitsHazard, hits, boundsIntersect, boundsOf, c3kstate,
        hzAtPlayer, Hazard.create, Player.init, initialPlaying, laneX, CANVAS_WIDTH,
        CANVAS_HEIGHT, PLAYER_WIDTH, PLAYER_HEIGHT, NPC_SPEED])
      (by norm_num [c3kstate, Player.init, initialPlaying])⟩

/-- C4 counterexample: a coin spawn attempt with cooldown elapsed and
population below cap whose probability draw fails does NOT reset the coin
cooldown timer — refuting "the cooldown timer is reset ... regardless of
whether the uniform random probability draw passes". -/
theorem c4_counterexample :
    COIN_SPAWN_INTERVAL < 10000 - c4state.lastCoinSpawnTime ∧
    c4state.coins.length < MAX_COINS ∧
    ¬(c4rand.coinChance < COIN_SPAWN_CHANCE) ∧
    (spawnObjects 0 c4state 10000 c4rand).lastCoinSpawnTime = c4state.lastCoinSpawnTime ∧
    c4state.lastCoinSpawnTime ≠ (10000 : ℚ) := by
  refine ⟨?_, ?_, ?_, ?_, ?_⟩
  · norm_num [c4state, initialPlaying, COIN_SPAWN_INTERVAL]
  · norm_num [c4state, initialPlaying, MAX_COINS]
  · norm_num [c4rand, COIN_SPAWN_CHANCE]
  · norm_num [spawnObjects, spawnNpcs, spawnCoins, spawnPowerups, spawnHazards,
      npcSpawnCond, coinSpawnCond, powerupSpawnCond, hazardSpawnCond, c4state, c4rand,
      initialPlaying, NPC_SPAWN_INTERVAL, COIN_SPAWN_INTERVAL, COIN_SPAWN_CHANCE,
      POWERUP_SPAWN_CHANCE, HAZARD_SPAWN_CHANCE, MAX_COINS, MAX_NPCS, MAX_POWERUPS,
      MAX_HAZARDS]
  · norm_num [c4state, initialPlaying]

/-! ### C5: purge order relative to the spawn check -/

theorem updateObjects_all_active (sinq : ℚ → ℚ) (s : GameState) (dt now : ℚ)
    (us : ℕ → NpcUpdR) :
    ((updateObjects sinq s dt now us).npcs.all fun n => n.active) = true ∧
    ((updateObjects sinq s dt now us).coins.all fun c => c.active) = true ∧
    ((updateObjects sinq s dt now us).powerups.all fun pu => pu.active) = true ∧
    ((updateObjects sinq s dt now us).hazards.all fun h => h.active) = true := by
  unfold updateObjects
  simp only []
  refine ⟨?_, ?_, ?_, ?_⟩ <;>
    · rw [List.all_eq_true]
      intro x hx
      exact (List.mem_filter.mp hx).2

/-- C5 (amended): inactive objects are purged inside `updateObjects`,
which in the frame pipeline runs after the spawn check and before the
collision pass: every entity handed to the collision resolver is active
(so a deactivated entity is never collision-tested again), but an entity
deactivated by the resolver stays in its collection — and counts toward
its category's population — through the next frame's spawn check. -/
theorem c5_purge_after_spawn_check :
    (∀ (sinq : ℚ → ℚ) (s : GameState) (dt now : ℚ) (us : ℕ → NpcUpdR),
      ((updateObjects sinq s dt now us).npcs.all fun n => n.active) = true ∧
      ((updateObjects sinq s dt now us).coins.all fun c => c.active) = true ∧
      ((updateObjects sinq s dt now us).powerups.all fun pu => pu.active) = true ∧
      ((updateObjects sinq s dt now us).hazards.all fun h => h.active) = true) ∧
    (∀ (sinq cosq : ℚ → ℚ) (piq : ℚ) (s : GameState) (fin : FrameIn),
      s.gameState = GState.playing → 0 < s.gameTime - fin.dt →
      ∃ mid : GameState,
        update sinq cosq piq s fin =
          updateParticles (checkCollisions sinq cosq piq fin.now fin.coll mid) fin.dt ∧
        (mid.npcs.all fun n => n.active) = true ∧
        (mid.coins.all fun c => c.active) = true ∧
        (mid.powerups.all fun pu => pu.active) = true ∧
        (mid.hazards.all fun h => h.active) = true) := by
  refine ⟨updateObjects_all_active, ?_⟩
  intro sinq cosq piq s fin hs hgt
  refine ⟨updateObjects sinq
    (spawnObjects piq
      (playerPhase
        (handleInput (applyRoad
          (updateSpeedProgression { s with gameTime := s.gameTime - fin.dt }) fin.dt)
          fin.left fin.right) fin.dt fin.now)
      fin.now fin.spawn) fin.dt fin.now fin.npcUpd, ?_, ?_, ?_, ?_, ?_⟩
  · unfold update
    simp only []
    split_ifs with h1 h2
    · exact absurd hs h1
    · exfalso
      simp only [] at h2
      linarith
    · rfl
  · exact (updateObjects_all_active _ _ _ _ _).1
  · exact (updateObjects_all_active _ _ _ _ _).2.1
  · exact (updateObjects_all_active _ _ _ _ _).2.2.1
  · exact (updateObjects_all_active _ _ _ _ _).2.2.2

/-! ### Resolver preservation lemmas (C5, C8) -/

theorem processCoins_pres (sinq cosq : ℚ → ℚ) (piq now : ℚ) (f : ℕ → ℕ → BurstR)
    (cs : List Coin) : ∀ (s : GameState) (i : ℕ),
    (processCoins sinq cosq piq now f s i cs).1.gameTime = s.gameTime ∧
    (processCoins sinq cosq piq now f s i cs).1.gameState = s.gameState ∧
    (processCoins sinq cosq piq now f s i cs).1.currentSpeedMultiplier =
      s.currentSpeedMultiplier ∧
    (processCoins sinq cosq piq now f s i cs).1.speedIncreaseApplied20s =
      s.speedIncreaseApplied20s ∧
    (processCoins sinq cosq piq now f s i cs).1.speedIncreaseApplied40s =
      s.speedIncreaseApplied40s ∧
    (processCoins sinq cosq piq now f s i cs).1.lastSpawnTime = s.lastSpawnTime ∧
    (processCoins sinq cosq piq now f s i cs).1.lastCoinSpawnTime = s.lastCoinSpawnTime ∧
    (processCoins sinq cosq piq now f s i cs).1.lastPowerupSpawnTime =
      s.lastPowerupSpawnTime ∧
    (processCoins sinq cosq piq now f s i cs).1.lastHazardSpawnTime =
      s.lastHazardSpawnTime := by
  induction cs with
  | nil => exact fun s i => ⟨rfl, rfl, rfl, rfl, rfl, rfl, rfl, rfl, rfl⟩
  | cons c rest ih =>
    intro s i
    rw [processCoins]
    split
    · simp only []
      refine ⟨(ih _ _).1.trans rfl, (ih _ _).2.1.trans rfl, (ih _ _).2.2.1.trans rfl,
        (ih _ _).2.2.2.1.trans rfl, (ih _ _).2.2.2.2.1.trans rfl,
        (ih _ _).2.2.2.2.2.1.trans rfl, (ih _ _).2.2.2.2.2.2.1.trans rfl,
        (ih _ _).2.2.2.2.2.2.2.1.trans rfl, (ih _ _).2.2.2.2.2.2.2.2.trans rfl⟩
    · exact ih _ _

theorem processPowerups_pres (sinq cosq : ℚ → ℚ) (piq now : ℚ) (f : ℕ → ℕ → ExplR)
    (ps : List Powerup) : ∀ (s : GameState) (i : ℕ),
    (processPowerups sinq cosq piq now f s i ps).1.gameTime = s.gameTime ∧
    (processPowerups sinq cosq piq now f s i ps).1.gameState = s.gameState ∧
    (processPowerups sinq cosq piq now f s i ps).1.currentSpeedMultiplier =
      s.currentSpeedMultiplier ∧
    (processPowerups sinq cosq piq now f s i ps).1.speedIncreaseApplied20s =
      s.speedIncreaseApplied20s ∧
    (processPowerups sinq cosq piq now f s i ps).1.speedIncreaseApplied40s =
      s.speedIncreaseApplied40s ∧
    (processPowerups sinq cosq piq now f s i ps).1.lastSpawnTime = s.lastSpawnTime ∧
    (processPowerups sinq cosq piq now f s i ps).1.lastCoinSpawnTime =
      s.lastCoinSpawnTime ∧
    (processPowerups sinq cosq piq now f s i ps).1.lastPowerupSpawnTime =
      s.lastPowerupSpawnTime ∧
    (processPowerups sinq cosq piq now f s i ps).1.lastHazardSpawnTime =
      s.lastHazardSpawnTime := by
  induction ps with
  | nil => exact fun s i => ⟨rfl, rfl, rfl, rfl, rfl, rfl, rfl, rfl, rfl⟩
  | cons pu rest ih =>
    intro s i
    rw [processPowerups]
    split
    · simp only []
      refine ⟨(ih _ _).1.trans rfl, (ih _ _).2.1.trans rfl, (ih _ _).2.2.1.trans rfl,
        (ih _ _).2.2.2.1.trans rfl, (ih _ _).2.2.2.2.1.trans rfl,
        (ih _ _).2.2.2.2.2.1.trans rfl, (ih _ _).2.2.2.2.2.2.1.trans rfl,
        (ih _ _).2.2.2.2.2.2.2.1.trans rfl, (ih _ _).2.2.2.2.2.2.2.2.trans rfl⟩
    · exact ih _ _

theorem processNpcs_pres (sinq cosq : ℚ → ℚ) (piq : ℚ) (f : ℕ → ℕ → ExplR)
    (ns : List NPC) : ∀ (s : GameState) (i : ℕ),
    (processNpcs sinq cosq piq f s i ns).1.gameTime = s.gameTime ∧
    (processNpcs sinq cosq piq f s i ns).1.currentSpeedMultiplier =
      s.currentSpeedMultiplier ∧
    (processNpcs sinq cosq piq f s i ns).1.speedIncreaseApplied20s =
      s.speedIncreaseApplied20s ∧
    (processNpcs sinq cosq piq f s i ns).1.speedIncreaseApplied40s =
      s.speedIncreaseApplied40s ∧
    (processNpcs sinq cosq piq f s i ns).1.lastSpawnTime = s.lastSpawnTime ∧
    (processNpcs sinq cosq piq f s i ns).1.lastCoinSpawnTime = s.lastCoinSpawnTime ∧
    (processNpcs sinq cosq piq f s i ns).1.lastPowerupSpawnTime =
      s.lastPowerupSpawnTime ∧
    (processNpcs sinq cosq piq f s i ns).1.lastHazardSpawnTime =
      s.lastHazardSpawnTime := by
  induction ns with
  | nil => exact fun s i => ⟨rfl, rfl, rfl, rfl, rfl, rfl, rfl, rfl⟩
  | cons n rest ih =>
    intro s i
    rw [processNpcs]
    split
    · simp only []
      refine ⟨(ih _ _).1.trans ?_, (ih _ _).2.1.trans ?_, (ih _ _).2.2.1.trans ?_,
        (ih _ _).2.2.2.1.trans ?_, (ih _ _).2.2.2.2.1.trans ?_,
        (ih _ _).2.2.2.2.2.1.trans ?_, (ih _ _).2.2.2.2.2.2.1.trans ?_,
        (ih _ _).2.2.2.2.2.2.2.trans ?_⟩ <;> (split <;> rfl)
    · exact ih _ _

theorem processHazards_pres (sinq cosq : ℚ → ℚ) (piq : ℚ) (f : ℕ → ℕ → ExplR)
    (hs : List Hazard) : ∀ (s : GameState) (i : ℕ),
    (processHazards sinq cosq piq f s i hs).1.gameTime = s.gameTime ∧
    (processHazards sinq cosq piq f s i hs).1.currentSpeedMultiplier =
      s.currentSpeedMultiplier ∧
    (processHazards sinq cosq piq f s i hs).1.speedIncreaseApplied20s =
      s.speedIncreaseApplied20s ∧
    (processHazards sinq cosq piq f s i hs).1.speedIncreaseApplied40s =
      s.speedIncreaseApplied40s ∧
    (processHazards sinq cosq piq f s i hs).1.lastSpawnTime = s.lastSpawnTime ∧
    (processHazards sinq cosq piq f s i hs).1.lastCoinSpawnTime = s.lastCoinSpawnTime ∧
    (processHazards sinq cosq piq f s i hs).1.lastPowerupSpawnTime =
      s.lastPowerupSpawnTime ∧
    (processHazards sinq cosq piq f s i hs).1.lastHazardSpawnTime =
      s.lastHazardSpawnTime := by
  induction hs with
  | nil => exact fun s i => ⟨rfl, rfl, rfl, rfl, rfl, rfl, rfl, rfl⟩
  | cons h rest ih =>
    intro s i
    rw [processHazards]
    split
    · simp only []
      refine ⟨(ih _ _).1.trans ?_, (ih _ _).2.1.trans ?_, (ih _ _).2.2.1.trans ?_,
        (ih _ _).2.2.2.1.trans ?_, (ih _ _).2.2.2.2.1.trans ?_,
        (ih _ _).2.2.2.2.2.1.trans ?_, (ih _ _).2.2.2.2.2.2.1.trans ?_,
        (ih _ _).2.2.2.2.2.2.2.trans ?_⟩ <;> (split <;> rfl)
    · exact ih _ _

theorem processHazards_snd_length (sinq cosq : ℚ → ℚ) (piq : ℚ) (f : ℕ → ℕ → ExplR)
    (hs : List Hazard) : ∀ (s : GameState) (i : ℕ),
    (processHazards sinq cosq piq f s i hs).2.length = hs.length := by
  induction hs with
  | nil => exact fun s i => rfl
  | cons h rest ih =>
    intro s i
    rw [processHazards]
    split <;> simp [ih]

/-- `spawnHazards` is the identity whenever its guard fails. -/
theorem spawnHazards_noop_of_cond (s : GameState) (now : ℚ) (r : SpawnR)
    (h : hazardSpawnCond s now r = false) :
    spawnHazards s now r = s := by
  unfold spawnHazards
  rw [h]
  simp

/-- C5 counterexample: the hazard deactivated by the collision resolver
stays in `hazards` (the purge runs in `updateObjects`, before the next
frame's spawn check only in the claim, not in the code), and it counts
toward the population cap at the next spawn check: with cooldown elapsed,
the draw passing, and only 7 active hazards, the hazard spawn is
nevertheless blocked — nothing is appended and the timer is not reset —
because the stale inactive entry makes the count 8.  (No stage between the
resolver and the next `spawnObjects` touches `hazards` or
`lastHazardSpawnTime`: see the pipeline decomposition.) -/
theorem c5_counterexample :
    ((hazardCollisions qz qz 0 fe c5state).hazards.map fun h => h.active) =
      [false, true, true, true, true, true, true, true] ∧
    (1500 : ℚ) < 1000010 - (hazardCollisions qz qz 0 fe c5state).lastHazardSpawnTime ∧
    c5rand.hzChance < HAZARD_SPAWN_CHANCE ∧
    (((hazardCollisions qz qz 0 fe c5state).hazards.filter fun h => h.active).length
      < MAX_HAZARDS) ∧
    (spawnObjects 0 (hazardCollisions qz qz 0 fe c5state) 1000010 c5rand).hazards.length
      = 8 ∧
    (spawnObjects 0 (hazardCollisions qz qz 0 fe c5state) 1000010 c5rand).lastHazardSpawnTime
      = (hazardCollisions qz qz 0 fe c5state).lastHazardSpawnTime := by
  have hmap : ((hazardCollisions qz qz 0 fe c5state).hazards.map fun h => h.active) =
      [false, true, true, true, true, true, true, true] := by
    norm_num [hazardCollisions, processHazards, createExplosion, Hazard.create, mkHaz,
      playerHitsHazard, hits, boundsIntersect, boundsOf, Player.takeDamage, endGame,
      c5state, zeroExplR, fe, qz, initialPlaying, Player.init, laneX, explosionColors,
      Int.floor_zero, CANVAS_WIDTH, CANVAS_HEIGHT, PLAYER_WIDTH, PLAYER_HEIGHT, NPC_SPEED]
  have hpres := processHazards_pres qz qz 0 fe c5state.hazards c5state 0
  have hT1 : (hazardCollisions qz qz 0 fe c5state).lastSpawnTime =
      c5state.lastSpawnTime := hpres.2.2.2.2.1
  have hT2 : (hazardCollisions qz qz 0 fe c5state).lastCoinSpawnTime =
      c5state.lastCoinSpawnTime := hpres.2.2.2.2.2.1
  have hT3 : (hazardCollisions qz qz 0 fe c5state).lastPowerupSpawnTime =
      c5state.lastPowerupSpawnTime := hpres.2.2.2.2.2.2.1
  have hT4 : (hazardCollisions qz qz 0 fe c5state).lastHazardSpawnTime =
      c5state.lastHazardSpawnTime := hpres.2.2.2.2.2.2.2
  have hlen : (hazardCollisions qz qz 0 fe c5state).hazards.length = 8 := by
    show (processHazards qz qz 0 fe c5state 0 c5state.hazards).2.length = 8
    rw [processHazards_snd_length]
    rfl
  have hfilter : (((hazardCollisions qz qz 0 fe c5state).hazards.filter
      fun h => h.active).length) = 7 := by
    have h2 : (((hazardCollisions qz qz 0 fe c5state).hazards.map fun h => h.active).filter
        fun b => b).length = 7 := by
      rw [hmap]
      rfl
    rw [List.filter_map, List.length_map] at h2
    exact h2
  have e1 : spawnNpcs 0 (hazardCollisions qz qz 0 fe c5state) 1000010 c5rand =
      hazardCollisions qz qz 0 fe c5state :=
    spawnNpcs_noop _ _ _ _
      (by rw [hT1]; norm_num [c5state, initialPlaying, NPC_SPAWN_INTERVAL])
  have e2 : spawnCoins 0 (hazardCollisions qz qz 0 fe c5state) 1000010 c5rand =
      hazardCollisions qz qz 0 fe c5state :=
    spawnCoins_noop _ _ _ _
      (by rw [hT2]; norm_num [c5state, initialPlaying, COIN_SPAWN_INTERVAL])
  have e3 : spawnPowerups (hazardCollisions qz qz 0 fe c5state) 1000010 c5rand =
      hazardCollisions qz qz 0 fe c5state :=
    spawnPowerups_noop _ _ _
      (by rw [hT3]; norm_num [c5state, initialPlaying])
  have hc : hazardSpawnCond (hazardCollisions qz qz 0 fe c5state) 1000010 c5rand
      = false := by
    simp [hazardSpawnCond, hlen, MAX_HAZARDS]
  have e4 : spawnHazards (hazardCollisions qz qz 0 fe c5state) 1000010 c5rand =
      hazardCollisions qz qz 0 fe c5state :=
    spawnHazards_noop_of_cond _ _ _ hc
  have espawn : spawnObjects 0 (hazardCollisions qz qz 0 fe c5state) 1000010 c5rand =
      hazardCollisions qz qz 0 fe c5state := by
    unfold spawnObjects
    rw [e1, e2, e3, e4]
  refine ⟨hmap, ?_, ?_, ?_, ?_, ?_⟩
  · rw [hT4]
    norm_num [c5state, initialPlaying]
  · norm_num [c5rand, HAZARD_SPAWN_CHANCE]
  · rw [hfilter]
    norm_num [MAX_HAZARDS]
  · rw [espawn]
    exact hlen
  · rw [espawn]

/-- Witness for C5: the pipeline decomposition at the concrete `c5state`. -/
theorem c5_witness :
    ∃ mid : GameState,
      update qz qz 0 c5state c5fin1 =
        updateParticles (checkCollisions qz qz 0 c5fin1.now c5fin1.coll mid) c5fin1.dt ∧
      (mid.npcs.all fun n => n.active) = true ∧
      (mid.coins.all fun c => c.active) = true ∧
      (mid.powerups.all fun pu => pu.active) = true ∧
      (mid.hazards.all fun h => h.active) = true :=
  c5_purge_after_spawn_check.2 qz qz 0 c5state c5fin1 rfl
    (by norm_num [c5state, c5fin1, initialPlaying])

/-! ### Speed-progression latches (C8) -/

theorem div_cond_20 (a : ℚ) : 20 ≤ a / 1000 ↔ 20000 ≤ a := by
  rw [le_div_iff (by norm_num : (0 : ℚ) < 1000)]
  norm_num

theorem div_cond_40 (a : ℚ) : 40 ≤ a / 1000 ↔ 40000 ≤ a := by
  rw [le_div_iff (by norm_num : (0 : ℚ) < 1000)]
  norm_num

/-- One progression pass re-establishes the latch/multiplier
characterisation, given the forward facts about the incoming latches. -/
theorem updateSpeedProgression_spec (s : GameState)
    (h20 : s.speedIncreaseApplied20s = true → 20000 ≤ elapsedMs s)
    (h40 : s.speedIncreaseApplied40s = true → 40000 ≤ elapsedMs s)
    (h42 : s.speedIncreaseApplied40s = true → s.speedIncreaseApplied20s = true)
    (hm : s.currentSpeedMultiplier =
      (if s.speedIncreaseApplied40s then SPEED_INCREASE_40S
       else if s.speedIncreaseApplied20s then SPEED_INCREASE_20S else 1)) :
    ((updateSpeedProgression s).speedIncreaseApplied20s = true ↔ 20000 ≤ elapsedMs s) ∧
    ((updateSpeedProgression s).speedIncreaseApplied40s = true ↔ 40000 ≤ elapsedMs s) ∧
    (updateSpeedProgression s).currentSpeedMultiplier =
      (if (updateSpeedProgression s).speedIncreaseApplied40s then SPEED_INCREASE_40S
       else if (updateSpeedProgression s).speedIncreaseApplied20s then SPEED_INCREASE_20S
       else 1) := by
  have e20 := div_cond_20 (GAME_DURATION - s.gameTime)
  have e40 := div_cond_40 (GAME_DURATION - s.gameTime)
  have h4020 : 40 ≤ (GAME_DURATION - s.gameTime) / 1000 →
      20 ≤ (GAME_DURATION - s.gameTime) / 1000 := by
    intro h
    linarith
  unfold elapsedMs at h20 h40
  unfold updateSpeedProgression elapsedMs
  simp only []
  by_cases c20 : 20 ≤ (GAME_DURATION - s.gameTime) / 1000 <;>
    by_cases c40 : 40 ≤ (GAME_DURATION - s.gameTime) / 1000 <;>
    cases hb20 : s.speedIncreaseApplied20s <;>
    cases hb40 : s.speedIncreaseApplied40s <;>
    (try simp_all) <;>
    (try linarith) <;>
    (try (intro hx; linarith)) <;>
    (try (split_ifs <;> (try simp_all) <;> (try linarith) <;>
      (try (intro hx; linarith)) <;> (try (exfalso; linarith))))

theorem updateObjects_fields (sinq : ℚ → ℚ) (s : GameState) (dt now : ℚ)
    (us : ℕ → NpcUpdR) :
    (updateObjects sinq s dt now us).gameState = s.gameState ∧
    (updateObjects sinq s dt now us).gameTime = s.gameTime ∧
    (updateObjects sinq s dt now us).currentSpeedMultiplier = s.currentSpeedMultiplier ∧
    (updateObjects sinq s dt now us).speedIncreaseApplied20s = s.speedIncreaseApplied20s ∧
    (updateObjects sinq s dt now us).speedIncreaseApplied40s = s.speedIncreaseApplied40s :=
  ⟨rfl, rfl, rfl, rfl, rfl⟩

theorem updateParticles_fields (s : GameState) (dt : ℚ) :
    (updateParticles s dt).gameTime = s.gameTime ∧
    (updateParticles s dt).currentSpeedMultiplier = s.currentSpeedMultiplier ∧
    (updateParticles s dt).speedIncreaseApplied20s = s.speedIncreaseApplied20s ∧
    (updateParticles s dt).speedIncreaseApplied40s = s.speedIncreaseApplied40s :=
  ⟨rfl, rfl, rfl, rfl⟩

/-- The collision pass never touches the timer, the multiplier or the
latches (only `endGame` may change `gameState`). -/
theorem checkCollisions_progFields (sinq cosq : ℚ → ℚ) (piq now : ℚ) (cr : CollR)
    (s : GameState) :
    (checkCollisions sinq cosq piq now cr s).gameTime = s.gameTime ∧
    (checkCollisions sinq cosq piq now cr s).currentSpeedMultiplier =
      s.currentSpeedMultiplier ∧
    (checkCollisions sinq cosq piq now cr s).speedIncreaseApplied20s =
      s.speedIncreaseApplied20s ∧
    (checkCollisions sinq cosq piq now cr s).speedIncreaseApplied40s =
      s.speedIncreaseApplied40s := by
  have hcc := processCoins_pres sinq cosq piq now cr.coinBurst s.coins s 0
  have hpp := processPowerups_pres sinq cosq piq now cr.puExpl
    (coinCollisions sinq cosq piq now cr.coinBurst s).powerups
    (coinCollisions sinq cosq piq now cr.coinBurst s) 0
  have hnn := processNpcs_pres sinq cosq piq cr.npcExpl
    (powerupCollisions sinq cosq piq now cr.puExpl
      (coinCollisions sinq cosq piq now cr.coinBurst s)).npcs
    (powerupCollisions sinq cosq piq now cr.puExpl
      (coinCollisions sinq cosq piq now cr.coinBurst s)) 0
  have hhh := processHazards_pres sinq cosq piq cr.hzExpl
    (npcCollisions sinq cosq piq cr.npcExpl
      (powerupCollisions sinq cosq piq now cr.puExpl
        (coinCollisions sinq cosq piq now cr.coinBurst s))).hazards
    (npcCollisions sinq cosq piq cr.npcExpl
      (powerupCollisions sinq cosq piq now cr.puExpl
        (coinCollisions sinq cosq piq now cr.coinBurst s))) 0
  refine ⟨?_, ?_, ?_, ?_⟩
  · exact (hhh.1.trans (hnn.1.trans (hpp.1.trans hcc.1)))
  · exact (hhh.2.1.trans (hnn.2.1.trans (hpp.2.2.1.trans hcc.2.2.1)))
  · exact (hhh.2.2.1.trans (hnn.2.2.1.trans (hpp.2.2.2.1.trans hcc.2.2.2.1)))
  · exact (hhh.2.2.2.1.trans (hnn.2.2.2.1.trans (hpp.2.2.2.2.1.trans hcc.2.2.2.2.1)))

/-- The phases of `update` that run after `updateSpeedProgression` never
touch the timer, the multiplier or the latches. -/
theorem pipeline_progFields (sinq cosq : ℚ → ℚ) (piq : ℚ) (t : GameState)
    (fin : FrameIn) :
    (updateParticles (checkCollisions sinq cosq piq fin.now fin.coll
        (updateObjects sinq (spawnObjects piq (playerPhase
            (handleInput (applyRoad t fin.dt) fin.left fin.right) fin.dt fin.now)
          fin.now fin.spawn) fin.dt fin.now fin.npcUpd)) fin.dt).gameTime = t.gameTime ∧
    (updateParticles (checkCollisions sinq cosq piq fin.now fin.coll
        (updateObjects sinq (spawnObjects piq (playerPhase
            (handleInput (applyRoad t fin.dt) fin.left fin.right) fin.dt fin.now)
          fin.now fin.spawn) fin.dt fin.now fin.npcUpd)) fin.dt).currentSpeedMultiplier =
      t.currentSpeedMultiplier ∧
    (updateParticles (checkCollisions sinq cosq piq fin.now fin.coll
        (updateObjects sinq (spawnObjects piq (playerPhase
            (handleInput (applyRoad t fin.dt) fin.left fin.right) fin.dt fin.now)
          fin.now fin.spawn) fin.dt fin.now fin.npcUpd)) fin.dt).speedIncreaseApplied20s =
      t.speedIncreaseApplied20s ∧
    (updateParticles (checkCollisions sinq cosq piq fin.now fin.coll
        (updateObjects sinq (spawnObjects piq (playerPhase
            (handleInput (applyRoad t fin.dt) fin.left fin.right) fin.dt fin.now)
          fin.now fin.spawn) fin.dt fin.now fin.npcUpd)) fin.dt).speedIncreaseApplied40s =
      t.speedIncreaseApplied40s := by
  refine ⟨?_, ?_, ?_, ?_⟩ <;>
    simp [spawnObjects, updateParticles_fields, checkCollisions_progFields,
      updateObjects_fields, spawnHazards_fields, spawnPowerups_fields,
      spawnCoins_fields, spawnNpcs_fields, playerPhase_fields, handleInput_fields,
      applyRoad_fields]

/-- `ProgressionInv` holds in the initial playing state. -/
theorem initialPlaying_ProgressionInv : ProgressionInv initialPlaying := by
  intro _
  norm_num [initialPlaying, elapsedMs, GAME_DURATION]

/-- One frame of `update` preserves the progression invariant. -/
theorem update_ProgressionInv (sinq cosq : ℚ → ℚ) (piq : ℚ) (s : GameState)
    (fin : FrameIn) (hdt : 0 ≤ fin.dt) (hinv : ProgressionInv s) :
    ProgressionInv (update sinq cosq piq s fin) := by
  unfold update
  by_cases hg : s.gameState = GState.playing
  · have hinv' := hinv hg
    rw [if_neg (by simp [hg])]
    simp only []
    split_ifs with ht
    · intro hp
      simp [endGame] at hp
    · unfold ProgressionInv
      intro _
      obtain ⟨hFt, hFm, hF20, hF40⟩ := pipeline_progFields sinq cosq piq
        (updateSpeedProgression { s with gameTime := s.gameTime - fin.dt }) fin
      obtain ⟨-, hut, -⟩ :=
        updateSpeedProgression_fields { s with gameTime := s.gameTime - fin.dt }
      have h20 : ({ s with gameTime := s.gameTime - fin.dt } :
          GameState).speedIncreaseApplied20s = true →
          20000 ≤ elapsedMs { s with gameTime := s.gameTime - fin.dt } := by
        intro hx
        have h1 := hinv'.1.mp hx
        unfold elapsedMs at h1 ⊢
        simp only []
        linarith
      have h40 : ({ s with gameTime := s.gameTime - fin.dt } :
          GameState).speedIncreaseApplied40s = true →
          40000 ≤ elapsedMs { s with gameTime := s.gameTime - fin.dt } := by
        intro hx
        have h1 := hinv'.2.1.mp hx
        unfold elapsedMs at h1 ⊢
        simp only []
        linarith
      have h42 : ({ s with gameTime := s.gameTime - fin.dt } :
          GameState).speedIncreaseApplied40s = true →
          ({ s with gameTime := s.gameTime - fin.dt } :
            GameState).speedIncreaseApplied20s = true := by
        intro hx
        have h1 := hinv'.2.1.mp hx
        exact hinv'.1.mpr (by linarith)
      have hspec := updateSpeedProgression_spec
        { s with gameTime := s.gameTime - fin.dt } h20 h40 h42 hinv'.2.2
      refine ⟨?_, ?_, ?_⟩
      · rw [show (20000 ≤ elapsedMs (updateParticles (checkCollisions sinq cosq piq
            fin.now fin.coll (updateObjects sinq (spawnObjects piq (playerPhase
              (handleInput (applyRoad (updateSpeedProgression
                { s with gameTime := s.gameTime - fin.dt }) fin.dt)
                fin.left fin.right) fin.dt fin.now) fin.now fin.spawn)
              fin.dt fin.now fin.npcUpd)) fin.dt)) =
            (20000 ≤ elapsedMs { s with gameTime := s.gameTime - fin.dt })
          from by unfold elapsedMs; rw [hFt, hut], hF20]
        exact hspec.1
      · rw [show (40000 ≤ elapsedMs (updateParticles (checkCollisions sinq cosq piq
            fin.now fin.coll (updateObjects sinq (spawnObjects piq (playerPhase
              (handleInput (applyRoad (updateSpeedProgression
                { s with gameTime := s.gameTime - fin.dt }) fin.dt)
                fin.left fin.right) fin.dt fin.now) fin.now fin.spawn)
              fin.dt fin.now fin.npcUpd)) fin.dt)) =
            (40000 ≤ elapsedMs { s with gameTime := s.gameTime - fin.dt })
          from by unfold elapsedMs; rw [hFt, hut], hF40]
        exact hspec.2.1
      · rw [hFm, hF20, hF40]
        exact hspec.2.2
  · rw [if_pos hg]
    exact hinv

/-- `ProgressionInv` is preserved along any frame sequence with
nonnegative deltas. -/
theorem runFrames_ProgressionInv (sinq cosq : ℚ → ℚ) (piq : ℚ) :
    ∀ (ins : List FrameIn) (s : GameState), (∀ f ∈ ins, 0 ≤ f.dt) →
      ProgressionInv s → ProgressionInv (runFrames sinq cosq piq s ins)
  | [], _, _, hinv => hinv
  | fin :: rest, s, hdts, hinv =>
    runFrames_ProgressionInv sinq cosq piq rest _
      (fun f hf => hdts f (List.mem_cons_of_mem _ hf))
      (update_ProgressionInv sinq cosq piq s fin (hdts fin (List.mem_cons_self _ _)) hinv)

/-- On a playing frame whose decremented timer stays positive, `update`
is the main pipeline applied to the decremented state. -/
theorem update_main_eq (sinq cosq : ℚ → ℚ) (piq : ℚ) (s : GameState)
    (fin : FrameIn) (hg : s.gameState = GState.playing)
    (ht : ¬(s.gameTime - fin.dt ≤ 0)) :
    update sinq cosq piq s fin =
      updateParticles (checkCollisions sinq cosq piq fin.now fin.coll
        (updateObjects sinq (spawnObjects piq (playerPhase
            (handleInput (applyRoad (updateSpeedProgression
              { s with gameTime := s.gameTime - fin.dt }) fin.dt) fin.left fin.right)
            fin.dt fin.now) fin.now fin.spawn) fin.dt fin.now fin.npcUpd)) fin.dt := by
  unfold update
  rw [if_neg (by simp [hg])]
  simp only []
  split_ifs
  rfl

/-- On a playing frame whose decremented timer is ≤ 0, `update` is
`endGame` of the decremented state. -/
theorem update_expiry_eq (sinq cosq : ℚ → ℚ) (piq : ℚ) (s : GameState)
    (fin : FrameIn) (hg : s.gameState = GState.playing)
    (ht : s.gameTime - fin.dt ≤ 0) :
    update sinq cosq piq s fin = endGame { s with gameTime := s.gameTime - fin.dt } := by
  unfold update
  rw [if_neg (by simp [hg])]
  simp only []
  split_ifs
  rfl

/-- Abstract step of the multiplier characterisation: if the latches on
each side of a frame satisfy their threshold characterisations and the
multipliers are the latch functions, the new multiplier is the threshold
function of the new elapsed time and differs from the old one exactly on
a threshold crossing. -/
theorem speed_mult_change (E d : ℚ) (hd : 0 ≤ d) (b20 b40 : Bool) (m : ℚ)
    (i20 : b20 = true ↔ 20000 ≤ E) (i40 : b40 = true ↔ 40000 ≤ E)
    (hm : m = if b40 then SPEED_INCREASE_40S else if b20 then SPEED_INCREASE_20S else 1)
    (c20 c40 : Bool) (m2 : ℚ)
    (j20 : c20 = true ↔ 20000 ≤ E + d) (j40 : c40 = true ↔ 40000 ≤ E + d)
    (hm2 : m2 = if c40 then SPEED_INCREASE_40S else if c20 then SPEED_INCREASE_20S else 1) :
    (m2 = if 40000 ≤ E + d then SPEED_INCREASE_40S
          else if 20000 ≤ E + d then SPEED_INCREASE_20S else 1) ∧
    (m2 ≠ m ↔ ((E < 20000 ∧ 20000 ≤ E + d) ∨ (E < 40000 ∧ 40000 ≤ E + d))) := by
  subst hm hm2
  by_cases p20 : 20000 ≤ E <;> by_cases p40 : 40000 ≤ E <;>
    by_cases q20 : 20000 ≤ E + d <;> by_cases q40 : 40000 ≤ E + d <;>
    (try (exfalso; linarith)) <;>
    simp_all [SPEED_INCREASE_20S, SPEED_INCREASE_40S] <;>
    (try norm_num) <;>
    (try linarith) <;>
    (try (split_ifs <;> (try rfl) <;> linarith))

/-- On a playing frame that stays playing, the new multiplier is the
threshold function of the new elapsed time, and it changes exactly when a
threshold is crossed during the frame. -/
theorem update_mult_spec (sinq cosq : ℚ → ℚ) (piq : ℚ) (s : GameState)
    (fin : FrameIn) (hdt : 0 ≤ fin.dt) (hinv : ProgressionInv s)
    (hg : s.gameState = GState.playing)
    (hres : (update sinq cosq piq s fin).gameState = GState.playing) :
    ((update sinq cosq piq s fin).currentSpeedMultiplier =
      (if 40000 ≤ elapsedMs s + fin.dt then SPEED_INCREASE_40S
       else if 20000 ≤ elapsedMs s + fin.dt then SPEED_INCREASE_20S else 1)) ∧
    ((update sinq cosq piq s fin).currentSpeedMultiplier ≠ s.currentSpeedMultiplier ↔
      ((elapsedMs s < 20000 ∧ 20000 ≤ elapsedMs s + fin.dt) ∨
       (elapsedMs s < 40000 ∧ 40000 ≤ elapsedMs s + fin.dt))) := by
  have hinv' := hinv hg
  by_cases ht : s.gameTime - fin.dt ≤ 0
  · rw [update_expiry_eq sinq cosq piq s fin hg ht] at hres
    simp [endGame] at hres
  · rw [update_main_eq sinq cosq piq s fin hg ht]
    obtain ⟨hFt, hFm, hF20, hF40⟩ := pipeline_progFields sinq cosq piq
      (updateSpeedProgression { s with gameTime := s.gameTime - fin.dt }) fin
    have h20 : ({ s with gameTime := s.gameTime - fin.dt } :
        GameState).speedIncreaseApplied20s = true →
        20000 ≤ elapsedMs { s with gameTime := s.gameTime - fin.dt } := by
      intro hx
      have h1 := hinv'.1.mp hx
      unfold elapsedMs at h1 ⊢
      simp only []
      linarith
    have h40 : ({ s with gameTime := s.gameTime - fin.dt } :
        GameState).speedIncreaseApplied40s = true →
        40000 ≤ elapsedMs { s with gameTime := s.gameTime - fin.dt } := by
      intro hx
      have h1 := hinv'.2.1.mp hx
      unfold elapsedMs at h1 ⊢
      simp only []
      linarith
    have h42 : ({ s with gameTime := s.gameTime - fin.dt } :
        GameState).speedIncreaseApplied40s = true →
        ({ s with gameTime := s.gameTime - fin.dt } :
          GameState).speedIncreaseApplied20s = true := by
      intro hx
      have h1 := hinv'.2.1.mp hx
      exact hinv'.1.mpr (by linarith)
    have hspec := updateSpeedProgression_spec
      { s with gameTime := s.gameTime - fin.dt } h20 h40 h42 hinv'.2.2
    have he1 : elapsedMs { s with gameTime := s.gameTime - fin.dt } =
        elapsedMs s + fin.dt := by
      unfold elapsedMs
      simp only []
      ring
    rw [he1] at hspec
    rw [hFm]
    exact speed_mult_change (elapsedMs s) fin.dt hdt s.speedIncreaseApplied20s
      s.speedIncreaseApplied40s s.currentSpeedMultiplier hinv'.1 hinv'.2.1 hinv'.2.2
      _ _ _ hspec.1 hspec.2.1 hspec.2.2

/-- Per-frame NPC update never rewrites the NPC's forward velocity. -/
theorem NPC.update_velocityY (sinq : ℚ → ℚ) (n : NPC) (dt : ℚ)
    (pl : Option Player) (u : NpcUpdR) :
    (NPC.update sinq n dt pl u).velocityY = n.velocityY := by
  obtain ⟨f1, f2, f3, f4, f5, f6, f7⟩ :=
    NPC.updateForwardMovement_fields
      { n with x := n.x + n.velocityX * (dt / 1000), y := n.y + n.velocityY * (dt / 1000) } dt u
  obtain ⟨l1, l2, l3, l4, l5, l6, l7⟩ :=
    NPC.updateLaneChanging_fields
      (NPC.updateForwardMovement
        { n with x := n.x + n.velocityX * (dt / 1000), y := n.y + n.velocityY * (dt / 1000) }
        dt u) dt u
  unfold NPC.update
  simp only []
  rw [apply_ite (fun m : NPC => m.velocityY)]
  cases pl with
  | none =>
    simp only [l4, f4, ite_self]
  | some p =>
    rw [apply_ite (fun m : NPC => m.velocityY)]
    simp only [l4, f4, ite_self]

/-- The spawner only appends: every NPC already in the list is still
there, unchanged, after `spawnObjects`. -/
theorem spawnObjects_npc_mem (piq : ℚ) (s : GameState) (now : ℚ) (r : SpawnR)
    (n : NPC) (hn : n ∈ s.npcs) : n ∈ (spawnObjects piq s now r).npcs := by
  unfold spawnObjects
  rw [(spawnHazards_fields _ now r).2.2.2.1, (spawnPowerups_fields _ now r).2.2.2.1,
      (spawnCoins_fields piq _ now r).2.2.2.1]
  unfold spawnNpcs
  split
  · exact List.mem_append_left _ hn
  · exact hn

/-- A successful NPC spawn appends exactly one NPC whose velocity is the
creation-time velocity scaled by the multiplier read at spawn time. -/
theorem spawnNpcs_new_velocity (piq : ℚ) (s : GameState) (now : ℚ) (r : SpawnR)
    (h : npcSpawnCond s now r = true) :
    (spawnNpcs piq s now r).npcs = s.npcs ++
      [{ NPC.create ⌊r.npcLane * 3⌋ piq r.npcInit with
          velocityY := (NPC.create ⌊r.npcLane * 3⌋ piq r.npcInit).velocityY *
            s.currentSpeedMultiplier }] := by
  unfold spawnNpcs
  rw [if_pos h]

/-- C8: across any playing-state frame sequence, each latch is set exactly
at the first frame where cumulative elapsed session time reaches its
threshold (20s / 40s) and the multiplier is determined by the latches
(`ProgressionInv`, preserved from the initial state along arbitrary
nonnegative-delta frames); on a playing frame that stays playing, the
multiplier equals the threshold function of the new elapsed time and
changes exactly when a threshold is crossed, so the change fires once per
threshold, never earlier and never again; and a multiplier change never
touches already-spawned NPCs: per-frame NPC updates and the resolver
nudge preserve `velocityY`, the spawner only appends (existing NPCs stay
unchanged), and a successful spawn scales the new NPC's velocity by the
multiplier read at spawn time. -/
theorem c8_speed_progression_latches (sinq cosq : ℚ → ℚ) (piq : ℚ)
    (ins : List FrameIn) (hdts : ∀ f ∈ ins, 0 ≤ f.dt) :
    ProgressionInv (runFrames sinq cosq piq initialPlaying ins) ∧
    (∀ (s : GameState) (fin : FrameIn), 0 ≤ fin.dt → ProgressionInv s →
      s.gameState = GState.playing →
      (update sinq cosq piq s fin).gameState = GState.playing →
      ((update sinq cosq piq s fin).currentSpeedMultiplier =
        (if 40000 ≤ elapsedMs s + fin.dt then SPEED_INCREASE_40S
         else if 20000 ≤ elapsedMs s + fin.dt then SPEED_INCREASE_20S else 1)) ∧
      ((update sinq cosq piq s fin).currentSpeedMultiplier ≠ s.currentSpeedMultiplier ↔
        ((elapsedMs s < 20000 ∧ 20000 ≤ elapsedMs s + fin.dt) ∨
         (elapsedMs s < 40000 ∧ 40000 ≤ elapsedMs s + fin.dt)))) ∧
    (∀ (n : NPC) (dt : ℚ) (pl : Option Player) (u : NpcUpdR),
      (NPC.update sinq n dt pl u).velocityY = n.velocityY ∧
      (npcNudge n).velocityY = n.velocityY) ∧
    (∀ (s : GameState) (now : ℚ) (r : SpawnR),
      (∀ n ∈ s.npcs, n ∈ (spawnObjects piq s now r).npcs) ∧
      (npcSpawnCond s now r = true →
        (spawnNpcs piq s now r).npcs = s.npcs ++
          [{ NPC.create ⌊r.npcLane * 3⌋ piq r.npcInit with
              velocityY := (NPC.create ⌊r.npcLane * 3⌋ piq r.npcInit).velocityY *
                s.currentSpeedMultiplier }])) := by
  refine ⟨runFrames_ProgressionInv sinq cosq piq ins initialPlaying hdts
    initialPlaying_ProgressionInv, ?_, ?_, ?_⟩
  · intro s fin hdt hinv hg hres
    exact update_mult_spec sinq cosq piq s fin hdt hinv hg hres
  · intro n dt pl u
    exact ⟨NPC.update_velocityY sinq n dt pl u, rfl⟩
  · intro s now r
    exact ⟨fun n hn => spawnObjects_npc_mem piq s now r n hn,
           fun h => spawnNpcs_new_velocity piq s now r h⟩

theorem c8_witness :
    (∀ f ∈ [stdFrame 45000 0], (0 : ℚ) ≤ f.dt) ∧
    ProgressionInv (runFrames qz qz 0 initialPlaying [stdFrame 45000 0]) := by
  have hd : ∀ f ∈ [stdFrame 45000 0], (0 : ℚ) ≤ f.dt := by
    intro f hf
    simp only [List.mem_singleton] at hf
    subst hf
    norm_num [stdFrame]
  exact ⟨hd, (c8_speed_progression_latches qz qz 0 [stdFrame 45000 0] hd).1⟩
